import Mathlib

/-!
Verification development for the poor-website-lead-generator repository.

The repository contains two website analyzers:
* `src/business_analyzer.py` (class BusinessWebsiteAnalyzer) using requests + BeautifulSoup,
* `src/simple_analyzer.py` (class SimpleWebsiteAnalyzer) using only the standard library.

Both fetch a page, run a fixed list of quality checks producing issue strings and
score deductions, extract contact information, classify the lead and batch over URLs.

The embedding below is a shallow one.  Network fetches and HTML parsing are the
library boundary (requests / urllib / BeautifulSoup / html.parser): fetch results and
the parsed view of a page are inputs, modelled by oracles passed to the analyzer
functions.  Everything the Python source itself computes (URL normalization, the
scheme fallback, every check, the scoring arithmetic, the record construction, contact
extraction via the two regular expression patterns, batching) is embedded as
executable Lean functions.  The regular-expression engine below implements exactly
the constructs used by the two patterns in the source (character classes, counted
repetition, optional and one-or-more repetition, word boundaries) with the
leftmost, greedy, backtracking semantics of the Python `re` module.
-/

/-! ## String helpers (models of Python str operations used by the source) -/

/-- Prefix test on character lists (the first list is the candidate prefix). -/
def prefQ : List Char → List Char → Bool
  | [], _ => true
  | a :: as, l =>
    match l with
    | [] => false
    | b :: bs => (a == b) && prefQ as bs

/-- Model of Python url.startswith(p): list-level prefix test on the characters. -/
def strStarts (s p : String) : Bool := prefQ p.data s.data

/-- Bool test that pat occurs as a contiguous sublist of l (Python "pat in text"). -/
def listInfixB (pat : List Char) : List Char → Bool
  | [] => pat.isEmpty
  | c :: tl => prefQ pat (c :: tl) || listInfixB pat tl

/-- Model of Python "pat in s" substring containment. -/
def strContains (s pat : String) : Bool := listInfixB pat.data s.data

/-- Decimal digit character for d < 10. -/
def digitCh (d : Nat) : Char := Char.ofNat (48 + d)

/-- Fuel-bounded decimal rendering of a natural number, most significant digit first. -/
def natDigitsAux : Nat → Nat → List Char
  | 0, _ => []
  | fuel + 1, n => if n = 0 then [] else natDigitsAux fuel (n / 10) ++ [digitCh (n % 10)]

/-- Model of Python str(n) for a nonnegative integer n. -/
def natStr (n : Nat) : String := if n = 0 then "0" else ⟨natDigitsAux (n + 1) n⟩

/-- Decode a list of decimal digit characters back to a natural number. -/
def natOfDigits (l : List Char) : Nat := l.foldl (fun a c => 10 * a + (c.toNat - 48)) 0

/-- One step of Python str.replace: fuel-bounded scan replacing every occurrence of
pat by rep, left to right, non-overlapping.  The fuel starts at the length of
the scanned list plus one, which is enough because every step consumes at least one
character of the input (the patterns used by the source are never empty). -/
def replAux (pat rep : List Char) : Nat → List Char → List Char
  | 0, l => l
  | _ + 1, [] => []
  | fuel + 1, c :: tl =>
    if prefQ pat (c :: tl) ∧ pat ≠ [] then
      rep ++ replAux pat rep fuel ((c :: tl).drop pat.length)
    else
      c :: replAux pat rep fuel tl

/-- Model of Python s.replace(pat, rep) (for the nonempty patterns the source uses). -/
def replaceAll (s pat rep : String) : String :=
  ⟨replAux pat.data rep.data (s.data.length + 1) s.data⟩

/-- Lookup in a Python dict built from an association list: dict(attrs) keeps the
last value bound to a key, so the lookup returns the last matching pair. -/
def dictGet : List (String × String) → String → Option String
  | [], _ => none
  | (a, b) :: tl, k =>
    match dictGet tl k with
    | some v => some v
    | none => if a = k then some b else none

/-- Model of Python s.strip(): drop whitespace from both ends (ASCII whitespace). -/
def strStrip (s : String) : String :=
  ⟨((s.data.dropWhile Char.isWhitespace).reverse.dropWhile Char.isWhitespace).reverse⟩

/-- Model of Python s.lower() for attribute values (ASCII case mapping). -/
def strLower (s : String) : String := ⟨s.data.map Char.toLower⟩

/-- Model of Python s[:n] slicing. -/
def strTake (s : String) (n : Nat) : String := ⟨s.data.take n⟩

/-! ## A small regular-expression engine

The two patterns in the source are
  phone:  \b\d{3}[-.]?\d{3}[-.]?\d{4}\b
  email:  \b[A-Za-z0-9._%+-]+@[A-Za-z0-9.-]+\.[A-Z|a-z]{2,}\b
Both are sequences of: word boundaries, single characters from a class, an optional
class character, and greedy repetition of a class character.  The engine below
implements exactly that item language with leftmost, greedy, backtracking matching,
the semantics the Python re module gives these patterns. -/

/-- One item of the pattern language: word boundary, one class character,
an optional class character, or a greedy zero-or-more repetition. -/
inductive RItem where
  | bnd : RItem
  | cls : (Char → Bool) → RItem
  | opt : (Char → Bool) → RItem
  | star : (Char → Bool) → RItem

/-- Word character for the \b semantics: [A-Za-z0-9_] (ASCII model). -/
def isWordChar (c : Char) : Bool := c.isAlphanum || c = '_'

/-- \b matches between a word character and a non word character or text edge. -/
def isBoundary (prev next : Option Char) : Bool :=
  (match prev with | some c => isWordChar c | none => false)
    != (match next with | some c => isWordChar c | none => false)

/-- Match a list of items at the current position.  hd is the head character of the
remaining text (none at the end), next k pv tries the items k against the text after
that head character, with pv as the new previous character, returning the number of
characters consumed there.  Greedy alternatives are tried consume-first, which is the
Python re backtracking order for these patterns. -/
def matchHere (next : List RItem → Option Char → Option Nat) (hd prev : Option Char) :
    List RItem → Option Nat
  | [] => some 0
  | .bnd :: rest => if isBoundary prev hd then matchHere next hd prev rest else none
  | .cls p :: rest =>
    match hd with
    | none => none
    | some c => if p c then (next rest (some c)).map (· + 1) else none
  | .opt p :: rest =>
    match hd with
    | none => matchHere next hd prev rest
    | some c =>
      if p c then
        match next rest (some c) with
        | some n => some (n + 1)
        | none => matchHere next hd prev rest
      else matchHere next hd prev rest
  | .star p :: rest =>
    match hd with
    | none => matchHere next hd prev rest
    | some c =>
      if p c then
        match next (.star p :: rest) (some c) with
        | some n => some (n + 1)
        | none => matchHere next hd prev rest
      else matchHere next hd prev rest

/-- Try to match the items at the start of l (prev is the character just before l);
returns the number of characters consumed on success. -/
def matchItems : List Char → List RItem → Option Char → Option Nat
  | [], items, prev => matchHere (fun _ _ => none) none prev items
  | c :: tl, items, prev => matchHere (fun its pv => matchItems tl its pv) (some c) prev items

/-- re.search: scan start positions left to right, return the first (greedy) match. -/
def searchFrom (items : List RItem) : Option Char → List Char → Option (List Char)
  | prev, l =>
    match matchItems l items prev with
    | some n => some (l.take n)
    | none =>
      match l with
      | [] => none
      | c :: tl => searchFrom items (some c) tl

/-- re.findall: all non-overlapping matches, scanning left to right, resuming after
the end of each match (advancing one position past an empty match).  Fuel-bounded;
a starting fuel of text length + 1 is enough since every step consumes a character. -/
def findAllAux (items : List RItem) : Nat → Option Char → List Char → List (List Char)
  | 0, _, _ => []
  | _ + 1, prev, [] =>
    match matchItems [] items prev with
    | some _ => [[]]
    | none => []
  | fuel + 1, prev, c :: tl =>
    match matchItems (c :: tl) items prev with
    | none => findAllAux items fuel (some c) tl
    | some 0 => [] :: findAllAux items fuel (some c) tl
    | some (n + 1) =>
      (c :: tl.take n) :: findAllAux items fuel ((c :: tl.take n).getLast?) (tl.drop n)

/-- Model of pattern.search(text): first match as a string, none if no match. -/
def reSearch (items : List RItem) (s : String) : Option String :=
  (searchFrom items none s.data).map fun l => ⟨l⟩

/-- Model of pattern.findall(text) for the group-free patterns of the source. -/
def reFindAll (items : List RItem) (s : String) : List String :=
  (findAllAux items (s.data.length + 1) none s.data).map fun l => ⟨l⟩

/-- Separator class [-.] of the phone pattern. -/
def isSep (c : Char) : Bool := c = '-' || c = '.'

/-- The phone pattern of the source: \b\d{3}[-.]?\d{3}[-.]?\d{4}\b . -/
def phonePat : List RItem :=
  [.bnd, .cls Char.isDigit, .cls Char.isDigit, .cls Char.isDigit, .opt isSep,
   .cls Char.isDigit, .cls Char.isDigit, .cls Char.isDigit, .opt isSep,
   .cls Char.isDigit, .cls Char.isDigit, .cls Char.isDigit, .cls Char.isDigit, .bnd]

/-- Local-part class [A-Za-z0-9._%+-] of the email pattern. -/
def isLocalChar (c : Char) : Bool :=
  c.isAlphanum || c = '.' || c = '_' || c = '%' || c = '+' || c = '-'

/-- Domain class [A-Za-z0-9.-] of the email pattern. -/
def isDomChar (c : Char) : Bool := c.isAlphanum || c = '.' || c = '-'

/-- Tail class [A-Z|a-z] of the email pattern (the literal pipe is in the class). -/
def isTldChar (c : Char) : Bool := c.isUpper || c.isLower || c = '|'

/-- The email pattern of the source: \b[A-Za-z0-9._%+-]+@[A-Za-z0-9.-]+\.[A-Z|a-z]{2,}\b . -/
def emailPat : List RItem :=
  [.bnd, .cls isLocalChar, .star isLocalChar, .cls (· = '@'), .cls isDomChar,
   .star isDomChar, .cls (· = '.'), .cls isTldChar, .cls isTldChar, .star isTldChar, .bnd]

/-- True when an item is a mandatory class character. -/
def isClsItem : RItem → Bool
  | .cls _ => true
  | _ => false

/-- True when the item list contains at least one mandatory class character, so that
any successful match consumes at least one character. -/
def hasCls (items : List RItem) : Bool := items.any isClsItem

/-! ## The result record

Python returns dicts whose key sets differ between the analyzed and the error paths
and between the two variants.  Keys that are sometimes absent are modelled as Option
fields, none meaning the key is absent from the dict. -/

/-- The AnalysisResult record.  url, quality_score, issues and status are present in
every record either variant produces; the remaining keys are optional. -/
structure AnalysisResult where
  url : String
  quality_score : Int
  issues : List String
  status : String
  needs_redesign : Option Bool := none
  is_hot_lead : Option Bool := none
  business_name : Option String := none
  phone : Option String := none
  email : Option String := none
  analysis_date : Option String := none
deriving Repr, DecidableEq

/-- One scoring check: when cond holds, append the issue string and subtract the
deduction from the running score (Python: issues.append(msg); score -= d). -/
def step (cond : Bool) (msg : String) (d : Int) (st : List String × Int) :
    List String × Int :=
  if cond then (st.1 ++ [msg], st.2 - d) else st

/-- The deduction attached to each issue string by the fixed rule table of the
source.  Dynamic strings ("HTTP {status}", "Outdated copyright: {year}",
"HTML parsing error: {msg}", "{count} broken images") are recognized by their fixed
prefix or shape; all other strings are the fixed table entries. -/
def deductionN (s : String) : Nat :=
  if prefQ "HTTP ".data s.data then 30
  else if prefQ "Outdated copyright: ".data s.data then 10
  else if prefQ "HTML parsing error".data s.data then 10
  else if s.data.takeWhile Char.isDigit ≠ [] ∧
      s.data = s.data.takeWhile Char.isDigit ++ " broken images".data then
    5 * natOfDigits (s.data.takeWhile Char.isDigit)
  else if s = "HTTPS not available" then 20
  else if s = "No HTTPS" then 20
  else if s = "No mobile viewport" then 15
  else if s = "Contains Lorem ipsum" then 25
  else if s = "Under construction" then 30
  else if s = "Uses Flash/embedded objects" then 25
  else if s = "No charset declaration" then 5
  else if s = "Poor/missing page title" then 15
  else if s = "No contact info found" then 20
  else 0

/-- The deduction as an integer (deductions are subtracted from an integer score). -/
def deduction (s : String) : Int := (deductionN s : Int)

/-- Sum of the deductions attached to a list of issue strings. -/
def sumDed (l : List String) : Int := (l.map deduction).sum

/-- Python range(2015, cy - 1): the ascending list 2015, ..., cy - 2. -/
def yearRange (cy : Nat) : List Nat := (List.range (cy - 1 - 2015)).map (2015 + ·)

/-- URL normalization shared by both analyzers: prepend https:// when the input has
no http:// or https:// scheme. -/
def normalizeUrl (url : String) : String :=
  if strStarts url "http://" || strStarts url "https://" then url else "https://" ++ url

/-! ## The business analyzer (src/business_analyzer.py)

BeautifulSoup is the library boundary: the parsed view the checks consult is the
BizPage input carried by a successful fetch. -/

/-- Parsed view of a fetched page as the business analyzer consults it.
text is soup.get_text().lower(); imgProbes lists, for each img element in document
order, none when it has no src and some b when it has one, b recording whether the
HEAD probe reported the image broken (404 or any probe exception). -/
structure BizPage where
  hasViewport : Bool
  text : String
  hasObjectEmbed : Bool
  hasCharsetMeta : Bool
  title : Option String
  h1 : Option String
  imgProbes : List (Option Bool)
deriving Repr, DecidableEq

/-- Outcome of one session.get in the business analyzer: a response with a status
code and parsed page, an SSLError, or any other exception with its message. -/
inductive BFetch where
  | ok : Nat → BizPage → BFetch
  | sslError : BFetch
  | connError : String → BFetch
deriving Repr, DecidableEq

/-- Business-info extraction (extract_business_info): name from the title element,
falling back to the first h1 when the title is missing or strips to an empty string;
phone and email are the first regex matches in the page text. -/
structure BizInfo where
  name : Option String
  phone : Option String
  email : Option String

/-- Model of BusinessWebsiteAnalyzer.extract_business_info. -/
def extract_business_info (p : BizPage) : BizInfo :=
  let name0 : Option String := p.title.map (fun t => strStrip t)
  let name1 : Option String :=
    match p.h1 with
    | none => name0
    | some h =>
      match name0 with
      | none => some (strStrip h)
      | some s => if s = "" then some (strStrip h) else some s
  { name := name1,
    phone := reSearch phonePat p.text,
    email := reSearch emailPat p.text }

/-- The five under-construction phrases of the business analyzer. -/
def constructionPhrasesBiz : List String :=
  ["under construction", "coming soon", "website under development",
   "site under construction", "page under construction"]

/-- Number of broken images: among the first 5 img elements, those that have a src
and whose probe reported broken. -/
def countBroken (probes : List (Option Bool)) : Nat :=
  ((probes.take 5).filterMap id).count true

/-- The check chain of BusinessWebsiteAnalyzer.analyze_website, applied in source
order to the issue list/score state produced by the fetch stage. -/
def bizChecks (cy : Nat) (url : String) (status : Nat) (p : BizPage)
    (st0 : List String × Int) : List String × Int :=
  let st1 := step (decide (status ≠ 200)) ("HTTP " ++ natStr status) 30 st0
  let st2 := step (! strStarts url "https://") "No HTTPS" 20 st1
  let st3 := step (! p.hasViewport) "No mobile viewport" 15 st2
  -- the source scans years ascending and breaks on the first hit: List.find? on the
  -- ascending range is that first hit
  let cyr := (yearRange cy).find? fun y =>
    strContains p.text ("© " ++ natStr y) || strContains p.text ("copyright " ++ natStr y)
  let st4 := step cyr.isSome ("Outdated copyright: " ++ natStr (cyr.getD 0)) 10 st3
  let st5 := step (strContains p.text "lorem ipsum") "Contains Lorem ipsum" 25 st4
  -- the source breaks after the first matching phrase; the issue string and the
  -- deduction do not depend on which phrase matched, so the break equals any
  let st6 := step (constructionPhrasesBiz.any fun ph => strContains p.text ph)
    "Under construction" 30 st5
  let st7 := step p.hasObjectEmbed "Uses Flash/embedded objects" 25 st6
  let st8 := step (! p.hasCharsetMeta) "No charset declaration" 5 st7
  let titleBad := match p.title with
    | none => true
    | some t => decide ((strStrip t).length < 10)
  let st9 := step titleBad "Poor/missing page title" 15 st8
  let st10 := step ((reFindAll phonePat p.text).isEmpty &&
    (reFindAll emailPat p.text).isEmpty) "No contact info found" 20 st9
  let broken := countBroken p.imgProbes
  step (decide (0 < broken)) (natStr broken ++ " broken images") ((broken * 5 : Nat)) st10

/-- The analyzed-path record of the business analyzer: clamped score, classifier
flags computed from the raw (unclamped) score, extracted business info, date. -/
def bizFinish (cy : Nat) (now : String) (url : String) (status : Nat) (p : BizPage)
    (st0 : List String × Int) : AnalysisResult :=
  let st := bizChecks cy url status p st0
  let info := extract_business_info p
  { url := url,
    quality_score := max 0 st.2,
    issues := st.1,
    status := "analyzed",
    needs_redesign := some (decide (st.2 < 50)),
    is_hot_lead := some (decide (st.2 < 30)),
    business_name := some (info.name.getD ""),
    phone := some (info.phone.getD ""),
    email := some (info.email.getD ""),
    analysis_date := some now }

/-- Error record of the business analyzer: only url, quality_score, issues, status. -/
def bizError (url : String) (issues : List String) : AnalysisResult :=
  { url := url, quality_score := 0, issues := issues, status := "error" }

/-- Model of BusinessWebsiteAnalyzer.analyze_website.  fetch is the session.get
oracle keyed by the requested URL; cy is datetime.now().year, now the formatted
analysis date.  A non-SSL exception on the primary attempt returns an error record
with no retry; an SSLError retries once over http://; the outer catch-all of the
source is unreachable in this pure model. -/
def bizAnalyze (fetch : String → BFetch) (cy : Nat) (now : String) (url0 : String) :
    AnalysisResult :=
  let url := normalizeUrl url0
  match fetch url with
  | .connError msg => bizError url ["Connection error: " ++ msg]
  | .sslError =>
    let url2 := replaceAll url "https://" "http://"
    match fetch url2 with
    | .ok status page => bizFinish cy now url2 status page (["HTTPS not available"], 100 - 20)
    | _ => bizError url2 ["Site not accessible"]
  | .ok status page => bizFinish cy now url status page ([], 100)

/-- The URLs requested by one bizAnalyze call, in order (session.get call trace). -/
def bizFetchTrace (fetch : String → BFetch) (url0 : String) : List String :=
  let url := normalizeUrl url0
  match fetch url with
  | .sslError => [url, replaceAll url "https://" "http://"]
  | _ => [url]

/-! ## The simple analyzer (src/simple_analyzer.py)

urllib and html.parser are the library boundary: urlopen outcomes and the view the
SimpleHTMLParser accumulates (title, meta tag attribute lists, lower-cased text) are
oracle inputs. -/

/-- The view SimpleHTMLParser builds from the fetched content: accumulated title
text, the attribute list of each meta element in order, the lower-cased
space-joined text content, and the message of the exception parser.feed raised, if
any (the fields keep whatever was accumulated before the exception). -/
structure SParsed where
  title : String
  metaTags : List (List (String × String))
  text : String
  parseErr : Option String
deriving Repr, DecidableEq

/-- Outcome of one urllib.request.urlopen call: decoded content, an HTTPError with
its status code, a URLError with its reason, or any other exception. -/
inductive UrlOpen where
  | ok : String → UrlOpen
  | httpError : Nat → UrlOpen
  | urlError : String → UrlOpen
  | exn : String → UrlOpen
deriving Repr, DecidableEq

/-- Model of SimpleWebsiteAnalyzer.fetch_url: urlopen outcomes are re-raised as
exceptions with a formatted message; in particular an HTTPError (any non-2xx
response) becomes the exception "HTTP {code}". -/
def fetch_url (net : String → UrlOpen) (u : String) : Except String String :=
  match net u with
  | .ok c => .ok c
  | .httpError code => .error ("HTTP " ++ natStr code)
  | .urlError r => .error ("URL Error: " ++ r)
  | .exn m => .error ("Connection error: " ++ m)

/-- The four under-construction phrases of the simple analyzer (it lacks
"site under construction"). -/
def constructionPhrasesSimple : List String :=
  ["under construction", "coming soon", "website under development",
   "page under construction"]

/-- True when some meta tag has name attribute (lower-cased) equal to viewport. -/
def hasViewportMeta (metas : List (List (String × String))) : Bool :=
  metas.any fun m => strLower ((dictGet m "name").getD "") = "viewport"

/-- The check chain of SimpleWebsiteAnalyzer.analyze_website, in source order.
The copyright check of this variant searches for the literal "Â© {year}" — the
mojibake bytes actually present in src/simple_analyzer.py line 128 — and for
"copyright {year}". -/
def simpleChecks (cy : Nat) (url : String) (p : SParsed)
    (st0 : List String × Int) : List String × Int :=
  let st1 := step p.parseErr.isSome ("HTML parsing error: " ++ p.parseErr.getD "") 10 st0
  let st2 := step (! strStarts url "https://") "No HTTPS" 20 st1
  let st3 := step (! hasViewportMeta p.metaTags) "No mobile viewport" 15 st2
  let cyr := (yearRange cy).find? fun y =>
    strContains p.text ("Â© " ++ natStr y) || strContains p.text ("copyright " ++ natStr y)
  let st4 := step cyr.isSome ("Outdated copyright: " ++ natStr (cyr.getD 0)) 10 st3
  let st5 := step (strContains p.text "lorem ipsum") "Contains Lorem ipsum" 25 st4
  let st6 := step (constructionPhrasesSimple.any fun ph => strContains p.text ph)
    "Under construction" 30 st5
  step ((reSearch phonePat p.text).isNone && (reSearch emailPat p.text).isNone)
    "No contact info found" 20 st6

/-- The analyzed-path record of the simple analyzer.  rawUrl is the unmodified
input: the result dict stores the url argument before normalization or fallback
rewriting, and never updates it.  The classifier flags compare the clamped score. -/
def simpleFinish (cy : Nat) (now : String) (rawUrl url : String) (p : SParsed)
    (st0 : List String × Int) : AnalysisResult :=
  let st := simpleChecks cy url p st0
  let qs := max 0 st.2
  { url := rawUrl,
    quality_score := qs,
    issues := st.1,
    status := "analyzed",
    needs_redesign := some (decide (qs < 50)),
    is_hot_lead := some (decide (qs < 30)),
    business_name := some (strTake p.title 100),
    phone := some ((reSearch phonePat p.text).getD ""),
    email := some ((reSearch emailPat p.text).getD ""),
    analysis_date := some now }

/-- Error record of the simple analyzer: the initial dict with status flipped to
error, score zeroed and the single diagnostic issue; the classifier flags were
never added, the extraction fields keep their initial empty values. -/
def simpleError (rawUrl now msg : String) : AnalysisResult :=
  { url := rawUrl, quality_score := 0, issues := [msg], status := "error",
    business_name := some "", phone := some "", email := some "",
    analysis_date := some now }

/-- Model of SimpleWebsiteAnalyzer.analyze_website.  net is the urlopen oracle,
parse the html.parser oracle mapping fetched content to the accumulated view.  Any
primary fetch failure of an https:// URL triggers exactly one retry with the scheme
rewritten to http://; the outer catch-all of the source is unreachable in this pure
model. -/
def simpleAnalyze (net : String → UrlOpen) (parse : String → SParsed) (cy : Nat)
    (now : String) (url0 : String) : AnalysisResult :=
  let url := normalizeUrl url0
  match fetch_url net url with
  | .ok content => simpleFinish cy now url0 url (parse content) ([], 100)
  | .error _ =>
    if strStarts url "https://" then
      let url2 := replaceAll url "https://" "http://"
      match fetch_url net url2 with
      | .ok content =>
        simpleFinish cy now url0 url2 (parse content) (["HTTPS not available"], 100 - 20)
      | .error e2 => simpleError url0 now ("Site not accessible: " ++ e2)
    else simpleError url0 now "Site not accessible"

/-- The URLs requested by one simpleAnalyze call, in order (urlopen call trace). -/
def simpleFetchTrace (net : String → UrlOpen) (url0 : String) : List String :=
  let url := normalizeUrl url0
  match fetch_url net url with
  | .ok _ => [url]
  | .error _ =>
    if strStarts url "https://" then [url, replaceAll url "https://" "http://"]
    else [url]

/-! ## The batch driver (batch_analyze of both variants) -/

/-- Model of batch_analyze: one analysis per URL, results appended in input order.
The inter-request sleep has no effect on the records. -/
def batch_analyze (f : String → AnalysisResult) : List String → List AnalysisResult
  | [] => []
  | u :: rest => f u :: batch_analyze f rest

/-! ## Concrete fixtures used by witnesses and counterexamples -/

/-- A page with no viewport meta, a short title and visible contact info
(the Scenario A page of the specification). -/
def pageScenA : BizPage :=
  { hasViewport := false, text := "call 555-123-4567 for service",
    hasObjectEmbed := false, hasCharsetMeta := true,
    title := some "Home", h1 := some "Smith Plumbing", imgProbes := [] }

/-- A page whose text contains an outdated copyright line and contact info. -/
def pageCopy : BizPage :=
  { hasViewport := true, text := "© 2016 acme corp call 555-123-4567",
    hasObjectEmbed := false, hasCharsetMeta := true,
    title := some "Acme Corporation Home", h1 := none, imgProbes := [] }

/-- Fetch oracle: every URL responds 200 with pageScenA. -/
def fetchScenA : String → BFetch := fun _ => .ok 200 pageScenA

/-- Fetch oracle: every URL responds 200 with pageCopy. -/
def fetchCopy : String → BFetch := fun _ => .ok 200 pageCopy

/-- Fetch oracle: every request raises a non-SSL connection exception. -/
def fetchRefused : String → BFetch := fun _ => .connError "refused"

/-- Fetch oracle: https:// requests raise SSLError, http:// requests succeed. -/
def fetchSslDown : String → BFetch :=
  fun u => if strStarts u "https://" then .sslError else .ok 200 pageScenA

/-- Parsed view of a healthy page for the simple analyzer. -/
def parsedOk : SParsed :=
  { title := "Acme Plumbing and Heating",
    metaTags := [[("name", "viewport"), ("content", "width=device-width")]],
    text := "call 555-123-4567 for service", parseErr := none }

/-- Parsed view whose text contains a plain outdated copyright marker. -/
def parsedCopy : SParsed :=
  { title := "Acme Corporation Home",
    metaTags := [[("name", "viewport")]],
    text := "© 2016 acme corp call 555-123-4567", parseErr := none }

/-- urlopen oracle: every URL yields content. -/
def netOk : String → UrlOpen := fun _ => .ok "body"

/-- urlopen oracle: every URL yields HTTP 404. -/
def net404 : String → UrlOpen := fun _ => .httpError 404

/-- urlopen oracle: https:// fails with a TLS exception, http:// succeeds. -/
def netTlsDown : String → UrlOpen :=
  fun u => if strStarts u "https://" then .exn "tls handshake failure" else .ok "body"

/-- Parser oracle returning parsedOk for any content. -/
def parseOk : String → SParsed := fun _ => parsedOk

/-- Parser oracle returning parsedCopy for any content. -/
def parseCopy : String → SParsed := fun _ => parsedCopy

/-- Fetch oracle: every URL responds with status 404 and pageScenA. -/
def fetch404 : String → BFetch := fun _ => .ok 404 pageScenA

/-- Parsed view of a page with no phone and no email anywhere in its text. -/
def parsedNada : SParsed :=
  { title := "Welcome To Our Website",
    metaTags := [[("name", "viewport")]],
    text := "welcome to our website", parseErr := none }

/-- Parser oracle returning parsedNada for any content. -/
def parseNada : String → SParsed := fun _ => parsedNada

/-! ## Lemmas: prefix tests -/

theorem prefQ_append_self (l t : List Char) : prefQ l (l ++ t) = true := by
  induction l with
  | nil => rfl
  | cons a as ih => simp [prefQ, ih]

theorem prefQ_exists {l₁ l₂ : List Char} (h : prefQ l₁ l₂ = true) : ∃ t, l₁ ++ t = l₂ := by
  induction l₁ generalizing l₂ with
  | nil => exact ⟨l₂, rfl⟩
  | cons a as ih =>
    cases l₂ with
    | nil => simp [prefQ] at h
    | cons b bs =>
      simp [prefQ] at h
      obtain ⟨t, ht⟩ := ih h.2
      exact ⟨t, by rw [h.1, List.cons_append, ht]⟩

/-! ## Lemmas: decimal rendering -/

theorem digitCh_isDigit {d : Nat} (h : d < 10) : (digitCh d).isDigit = true := by
  interval_cases d <;> decide

theorem digitCh_toNat {d : Nat} (h : d < 10) : (digitCh d).toNat = 48 + d := by
  interval_cases d <;> decide

theorem natDigitsAux_digits :
    ∀ fuel n, ∀ c ∈ natDigitsAux fuel n, c.isDigit = true := by
  intro fuel
  induction fuel with
  | zero => intro n c hc; simp [natDigitsAux] at hc
  | succ f ih =>
    intro n c hc
    by_cases h0 : n = 0
    · simp [natDigitsAux, h0] at hc
    · simp only [natDigitsAux, h0, if_false, List.mem_append, List.mem_singleton] at hc
      rcases hc with hc | hc
      · exact ih _ c hc
      · subst hc; exact digitCh_isDigit (Nat.mod_lt _ (by norm_num))

theorem natOfDigits_append_digit (l : List Char) (c : Char) :
    natOfDigits (l ++ [c]) = 10 * natOfDigits l + (c.toNat - 48) := by
  simp [natOfDigits, List.foldl_append]

theorem natDigitsAux_val :
    ∀ fuel n, n < 10 ^ fuel → natOfDigits (natDigitsAux fuel n) = n := by
  intro fuel
  induction fuel with
  | zero => intro n h; interval_cases n; rfl
  | succ f ih =>
    intro n h
    by_cases h0 : n = 0
    · subst h0; rfl
    · have hdiv : n / 10 < 10 ^ f := by
        rw [Nat.div_lt_iff_lt_mul (by norm_num)]
        calc n < 10 ^ (f + 1) := h
        _ = 10 ^ f * 10 := by rw [pow_succ]
      have hmod : n % 10 < 10 := Nat.mod_lt _ (by norm_num)
      simp only [natDigitsAux, h0, if_false]
      rw [natOfDigits_append_digit, ih _ hdiv, digitCh_toNat hmod]
      have := Nat.div_add_mod n 10
      omega

theorem natStr_digits {n : Nat} : ∀ c ∈ (natStr n).data, c.isDigit = true := by
  intro c hc
  by_cases h0 : n = 0
  · subst h0
    simp only [natStr, if_pos rfl] at hc
    have : c = '0' := by simpa using hc
    subst this; decide
  · simp only [natStr, h0, if_false] at hc
    exact natDigitsAux_digits _ _ c hc

theorem natStr_ne_nil (n : Nat) : (natStr n).data ≠ [] := by
  by_cases h0 : n = 0
  · subst h0; decide
  · simp [natStr, h0, natDigitsAux]

theorem natOfDigits_natStr (n : Nat) : natOfDigits (natStr n).data = n := by
  by_cases h0 : n = 0
  · subst h0; decide
  · simp only [natStr, h0, if_false]
    refine natDigitsAux_val _ _ ?_
    have h1 : n < 10 ^ n := Nat.lt_pow_self (by norm_num) n
    exact lt_of_lt_of_le h1 (Nat.pow_le_pow_right (by norm_num) (Nat.le_succ n))

/-! ## Lemmas: the deduction table on the dynamic issue strings -/

theorem bfalse_ne_true {b : Bool} (h : b = false) : ¬(b = true) := by
  simp [h]

theorem ded_http (n : Nat) : deduction ("HTTP " ++ natStr n) = 30 := by
  have h : prefQ "HTTP ".data ("HTTP " ++ natStr n).data = true := by
    rw [String.data_append]; exact prefQ_append_self _ _
  unfold deduction deductionN
  rw [if_pos h]
  rfl

theorem ded_copy (y : Nat) : deduction ("Outdated copyright: " ++ natStr y) = 10 := by
  have h1 : prefQ "HTTP ".data ("Outdated copyright: " ++ natStr y).data = false := rfl
  have h2 : prefQ "Outdated copyright: ".data ("Outdated copyright: " ++ natStr y).data =
      true := by
    rw [String.data_append]; exact prefQ_append_self _ _
  unfold deduction deductionN
  rw [if_neg (bfalse_ne_true h1), if_pos h2]
  rfl

theorem ded_parse (m : String) : deduction ("HTML parsing error: " ++ m) = 10 := by
  have h1 : prefQ "HTTP ".data ("HTML parsing error: " ++ m).data = false := rfl
  have h2 : prefQ "Outdated copyright: ".data ("HTML parsing error: " ++ m).data = false := rfl
  have h3 : prefQ "HTML parsing error".data ("HTML parsing error: " ++ m).data = true := rfl
  unfold deduction deductionN
  rw [if_neg (bfalse_ne_true h1), if_neg (bfalse_ne_true h2), if_pos h3]
  rfl

theorem nondigit_beq_digit (a : Char) {c : Char} (ha : a.isDigit = false)
    (hc : c.isDigit = true) : (a == c) = false := by
  rw [beq_eq_false_iff_ne]
  intro he
  subst he
  rw [hc] at ha
  cases ha

theorem takeWhile_all_cons_append (p : Char → Bool) (l₁ : List Char) (c : Char)
    (l₂ : List Char) (h1 : ∀ a ∈ l₁, p a = true) (h2 : p c = false) :
    (l₁ ++ c :: l₂).takeWhile p = l₁ := by
  induction l₁ with
  | nil => simp [List.takeWhile_cons, h2]
  | cons a as ih =>
    have ha : p a = true := h1 a (List.mem_cons_self _ _)
    simp only [List.cons_append, List.takeWhile_cons, ha, if_true]
    rw [ih fun x hx => h1 x (List.mem_cons_of_mem _ hx)]

theorem ded_broken (n : Nat) :
    deduction (natStr n ++ " broken images") = ((n * 5 : Nat) : Int) := by
  obtain ⟨c, r, hnd⟩ : ∃ c r, (natStr n).data = c :: r := by
    cases h : (natStr n).data with
    | nil => exact absurd h (natStr_ne_nil n)
    | cons c r => exact ⟨c, r, rfl⟩
  have hc : c.isDigit = true := natStr_digits c (by rw [hnd]; exact List.mem_cons_self _ _)
  have hdata : (natStr n ++ " broken images").data =
      c :: (r ++ " broken images".data) := by
    rw [String.data_append, hnd, List.cons_append]
  have hp1 : prefQ "HTTP ".data (natStr n ++ " broken images").data = false := by
    rw [hdata]
    show ('H' == c && prefQ "TTP ".data (r ++ " broken images".data)) = false
    rw [nondigit_beq_digit 'H' (by decide) hc, Bool.false_and]
  have hp2 : prefQ "Outdated copyright: ".data (natStr n ++ " broken images").data =
      false := by
    rw [hdata]
    show ('O' == c && prefQ "utdated copyright: ".data (r ++ " broken images".data)) = false
    rw [nondigit_beq_digit 'O' (by decide) hc, Bool.false_and]
  have hp3 : prefQ "HTML parsing error".data (natStr n ++ " broken images").data = false := by
    rw [hdata]
    show ('H' == c && prefQ "TML parsing error".data (r ++ " broken images".data)) = false
    rw [nondigit_beq_digit 'H' (by decide) hc, Bool.false_and]
  have htw : (natStr n ++ " broken images").data.takeWhile Char.isDigit = (natStr n).data := by
    rw [String.data_append]
    show ((natStr n).data ++ ' ' :: "broken images".data).takeWhile Char.isDigit = _
    exact takeWhile_all_cons_append _ _ _ _ natStr_digits (by decide)
  have hcond : (natStr n ++ " broken images").data.takeWhile Char.isDigit ≠ [] ∧
      (natStr n ++ " broken images").data =
        (natStr n ++ " broken images").data.takeWhile Char.isDigit ++
          " broken images".data := by
    constructor
    · rw [htw]; exact natStr_ne_nil n
    · rw [htw, String.data_append]
  unfold deduction deductionN
  rw [if_neg (bfalse_ne_true hp1), if_neg (bfalse_ne_true hp2), if_neg (bfalse_ne_true hp3),
    if_pos hcond, htw, natOfDigits_natStr]
  push_cast
  ring

theorem deduction_nonneg (s : String) : 0 ≤ deduction s := Int.natCast_nonneg _

/-! ## Lemmas: the scoring chain -/

theorem sumDed_append_one (l : List String) (m : String) :
    sumDed (l ++ [m]) = sumDed l + deduction m := by
  simp [sumDed]

theorem step_inv {m : String} {d : Int} (c : Bool) {st : List String × Int}
    (hd : deduction m = d) (h : st.2 = 100 - sumDed st.1) :
    (step c m d st).2 = 100 - sumDed (step c m d st).1 := by
  cases c
  · simpa [step] using h
  · have hs : step true m d st = (st.1 ++ [m], st.2 - d) := by simp [step]
    rw [hs]
    show st.2 - d = 100 - sumDed (st.1 ++ [m])
    rw [sumDed_append_one, h, hd]
    ring

theorem mem_step_iff (x : String) (c : Bool) (m : String) (d : Int)
    (st : List String × Int) :
    x ∈ (step c m d st).1 ↔ x ∈ st.1 ∨ (c = true ∧ x = m) := by
  cases c <;> simp [step]

theorem bizChecks_snd (cy : Nat) (url : String) (status : Nat) (p : BizPage)
    (st0 : List String × Int) (h : st0.2 = 100 - sumDed st0.1) :
    (bizChecks cy url status p st0).2 = 100 - sumDed (bizChecks cy url status p st0).1 := by
  unfold bizChecks
  exact
    step_inv _ (ded_broken _)
    (step_inv _ (by decide)
    (step_inv _ (by decide)
    (step_inv _ (by decide)
    (step_inv _ (by decide)
    (step_inv _ (by decide)
    (step_inv _ (by decide)
    (step_inv _ (ded_copy _)
    (step_inv _ (by decide)
    (step_inv _ (by decide)
    (step_inv _ (ded_http _) h))))))))))

theorem simpleChecks_snd (cy : Nat) (url : String) (p : SParsed)
    (st0 : List String × Int) (h : st0.2 = 100 - sumDed st0.1) :
    (simpleChecks cy url p st0).2 = 100 - sumDed (simpleChecks cy url p st0).1 := by
  unfold simpleChecks
  exact
    step_inv _ (by decide)
    (step_inv _ (by decide)
    (step_inv _ (by decide)
    (step_inv _ (ded_copy _)
    (step_inv _ (by decide)
    (step_inv _ (by decide)
    (step_inv _ (ded_parse _) h))))))

theorem sumDed_nonneg (l : List String) : 0 ≤ sumDed l := by
  induction l with
  | nil => decide
  | cons a tl ih =>
    have := deduction_nonneg a
    simp only [sumDed, List.map_cons, List.sum_cons]
    have h2 : 0 ≤ (tl.map deduction).sum := ih
    omega

/-! ## Lemmas: the matching engine -/

theorem hasCls_cons_of (it : RItem) (rest : List RItem) (h : hasCls (it :: rest) = true)
    (hit : isClsItem it = false) : hasCls rest = true := by
  simp only [hasCls, List.any_cons, hit, Bool.false_or] at h
  exact h

theorem matchHere_bound (next : List RItem → Option Char → Option Nat)
    (hd prev : Option Char) (K : Nat)
    (hnext : ∀ its pv m, next its pv = some m → m + 1 ≤ K) :
    ∀ items n, matchHere next hd prev items = some n → n ≤ K := by
  intro items
  induction items with
  | nil =>
    intro n h
    simp only [matchHere] at h
    cases h
    exact Nat.zero_le K
  | cons it rest ih =>
    cases it with
    | bnd =>
      intro n h
      simp only [matchHere] at h
      by_cases hb : isBoundary prev hd = true
      · rw [if_pos hb] at h; exact ih n h
      · rw [if_neg hb] at h; exact Option.noConfusion h
    | cls p =>
      intro n h
      cases hd with
      | none =>
        simp only [matchHere] at h
        exact Option.noConfusion h
      | some c =>
        simp only [matchHere] at h
        by_cases hp : p c = true
        · rw [if_pos hp] at h
          cases hn : next rest (some c) with
          | none => rw [hn] at h; exact Option.noConfusion h
          | some m =>
            rw [hn] at h
            simp only [Option.map_some'] at h
            cases h
            exact hnext rest (some c) m hn
        · rw [if_neg hp] at h; exact Option.noConfusion h
    | opt p =>
      intro n h
      cases hd with
      | none =>
        simp only [matchHere] at h
        exact ih n h
      | some c =>
        simp only [matchHere] at h
        by_cases hp : p c = true
        · rw [if_pos hp] at h
          cases hn : next rest (some c) with
          | none => rw [hn] at h; exact ih n h
          | some m =>
            rw [hn] at h
            cases h
            exact hnext rest (some c) m hn
        · rw [if_neg hp] at h; exact ih n h
    | star p =>
      intro n h
      cases hd with
      | none =>
        simp only [matchHere] at h
        exact ih n h
      | some c =>
        simp only [matchHere] at h
        by_cases hp : p c = true
        · rw [if_pos hp] at h
          cases hn : next (.star p :: rest) (some c) with
          | none => rw [hn] at h; exact ih n h
          | some m =>
            rw [hn] at h
            cases h
            exact hnext _ (some c) m hn
        · rw [if_neg hp] at h; exact ih n h

theorem matchItems_le :
    ∀ (l : List Char) (items : List RItem) (prev : Option Char) (n : Nat),
      matchItems l items prev = some n → n ≤ l.length := by
  intro l
  induction l with
  | nil =>
    intro items prev n h
    rw [matchItems] at h
    exact matchHere_bound _ _ _ 0 (fun its pv m hm => Option.noConfusion hm) items n h
  | cons c tl ih =>
    intro items prev n h
    rw [matchItems] at h
    refine matchHere_bound _ _ _ (tl.length + 1) ?_ items n h
    intro its pv m hm
    have := ih its pv m hm
    omega

theorem matchHere_pos (next : List RItem → Option Char → Option Nat)
    (hd prev : Option Char) :
    ∀ items n, hasCls items = true → matchHere next hd prev items = some n → 0 < n := by
  intro items
  induction items with
  | nil =>
    intro n hcls _
    exact absurd hcls (by decide)
  | cons it rest ih =>
    cases it with
    | bnd =>
      intro n hcls h
      have hcls2 : hasCls rest = true := hasCls_cons_of _ _ hcls rfl
      simp only [matchHere] at h
      by_cases hb : isBoundary prev hd = true
      · rw [if_pos hb] at h; exact ih n hcls2 h
      · rw [if_neg hb] at h; exact Option.noConfusion h
    | cls p =>
      intro n hcls h
      cases hd with
      | none =>
        simp only [matchHere] at h
        exact Option.noConfusion h
      | some c =>
        simp only [matchHere] at h
        by_cases hp : p c = true
        · rw [if_pos hp] at h
          cases hn : next rest (some c) with
          | none => rw [hn] at h; exact Option.noConfusion h
          | some m =>
            rw [hn] at h
            simp only [Option.map_some'] at h
            cases h
            omega
        · rw [if_neg hp] at h; exact Option.noConfusion h
    | opt p =>
      intro n hcls h
      have hcls2 : hasCls rest = true := hasCls_cons_of _ _ hcls rfl
      cases hd with
      | none =>
        simp only [matchHere] at h
        exact ih n hcls2 h
      | some c =>
        simp only [matchHere] at h
        by_cases hp : p c = true
        · rw [if_pos hp] at h
          cases hn : next rest (some c) with
          | none => rw [hn] at h; exact ih n hcls2 h
          | some m => rw [hn] at h; cases h; omega
        · rw [if_neg hp] at h; exact ih n hcls2 h
    | star p =>
      intro n hcls h
      have hcls2 : hasCls rest = true := hasCls_cons_of _ _ hcls rfl
      cases hd with
      | none =>
        simp only [matchHere] at h
        exact ih n hcls2 h
      | some c =>
        simp only [matchHere] at h
        by_cases hp : p c = true
        · rw [if_pos hp] at h
          cases hn : next (.star p :: rest) (some c) with
          | none => rw [hn] at h; exact ih n hcls2 h
          | some m => rw [hn] at h; cases h; omega
        · rw [if_neg hp] at h; exact ih n hcls2 h

theorem matchItems_pos (l : List Char) (items : List RItem) (prev : Option Char)
    (n : Nat) (hcls : hasCls items = true) (h : matchItems l items prev = some n) :
    0 < n := by
  cases l with
  | nil => rw [matchItems] at h; exact matchHere_pos _ _ _ items n hcls h
  | cons c tl => rw [matchItems] at h; exact matchHere_pos _ _ _ items n hcls h

theorem searchFrom_some_ne_nil (items : List RItem) (hcls : hasCls items = true) :
    ∀ (l : List Char) (prev : Option Char) (s : List Char),
      searchFrom items prev l = some s → s ≠ [] := by
  intro l
  induction l with
  | nil =>
    intro prev s h
    rw [searchFrom] at h
    cases hm : matchItems [] items prev with
    | none => rw [hm] at h; exact Option.noConfusion h
    | some n =>
      have h1 := matchItems_pos [] items prev n hcls hm
      have h2 := matchItems_le [] items prev n hm
      simp only [List.length_nil] at h2
      omega
  | cons c tl ih =>
    intro prev s h
    rw [searchFrom] at h
    cases hm : matchItems (c :: tl) items prev with
    | none => rw [hm] at h; exact ih (some c) s h
    | some n =>
      rw [hm] at h
      have h1 := matchItems_pos (c :: tl) items prev n hcls hm
      cases h
      cases n with
      | zero => omega
      | succ m => simp

theorem findAllAux_nil_iff (items : List RItem) :
    ∀ (fuel : Nat) (l : List Char) (prev : Option Char), l.length < fuel →
      (findAllAux items fuel prev l = [] ↔ searchFrom items prev l = none) := by
  intro fuel
  induction fuel with
  | zero => intro l prev h; omega
  | succ f ih =>
    intro l prev h
    cases l with
    | nil =>
      cases hm : matchItems [] items prev with
      | some n => simp [findAllAux, searchFrom, hm]
      | none => simp [findAllAux, searchFrom, hm]
    | cons c tl =>
      cases hm : matchItems (c :: tl) items prev with
      | none =>
        simp only [findAllAux, searchFrom, hm]
        exact ih tl (some c) (by simp only [List.length_cons] at h; omega)
      | some n =>
        cases n with
        | zero => simp [findAllAux, searchFrom, hm]
        | succ m => simp [findAllAux, searchFrom, hm]

theorem reFindAll_isEmpty_iff (items : List RItem) (s : String) :
    (reFindAll items s).isEmpty = true ↔ reSearch items s = none := by
  unfold reFindAll reSearch
  rw [List.isEmpty_iff, List.map_eq_nil_iff, Option.map_eq_none']
  exact findAllAux_nil_iff items (s.data.length + 1) s.data none (by omega)

theorem reSearch_getD_empty_iff (items : List RItem) (hcls : hasCls items = true)
    (s : String) : ((reSearch items s).getD "" = "") ↔ reSearch items s = none := by
  cases hr : reSearch items s with
  | none => simp
  | some t =>
    simp only [Option.getD_some]
    constructor
    · intro ht
      exfalso
      unfold reSearch at hr
      cases hs : searchFrom items none s.data with
      | none => rw [hs] at hr; exact Option.noConfusion hr
      | some dl =>
        rw [hs] at hr
        simp only [Option.map_some'] at hr
        cases hr
        have hne := searchFrom_some_ne_nil items hcls s.data none dl hs
        exact hne (congrArg String.data ht)
    · intro hcontra; exact Option.noConfusion hcontra

/-! ## Lemmas: URL normalization, scheme rewriting -/

theorem replAux_prefix_match (pat rep t : List Char) (hp : pat ≠ []) (fuel : Nat) :
    replAux pat rep (fuel + 1) (pat ++ t) =
      rep ++ replAux pat rep fuel ((pat ++ t).drop pat.length) := by
  cases pat with
  | nil => exact absurd rfl hp
  | cons a as =>
    rw [List.cons_append, replAux,
      if_pos ⟨by rw [← List.cons_append]; exact prefQ_append_self _ _, hp⟩]

theorem strStarts_http_of_replace {u : String} (h : strStarts u "https://" = true) :
    strStarts (replaceAll u "https://" "http://") "http://" = true := by
  obtain ⟨t, ht⟩ := prefQ_exists h
  unfold replaceAll strStarts
  show prefQ "http://".data
    (replAux "https://".data "http://".data (u.data.length + 1) u.data) = true
  rw [← ht, replAux_prefix_match _ _ _ (by decide), List.drop_left]
  exact prefQ_append_self _ _

theorem strStarts_https_false_of_http {u : String} (h : strStarts u "http://" = true) :
    strStarts u "https://" = false := by
  obtain ⟨t, ht⟩ := prefQ_exists h
  unfold strStarts
  rw [← ht]
  rfl

theorem normalizeUrl_keep_http {u : String} (h : strStarts u "http://" = true) :
    normalizeUrl u = u := by
  simp [normalizeUrl, h]

theorem normalizeUrl_keep_https {u : String} (h : strStarts u "https://" = true) :
    normalizeUrl u = u := by
  simp [normalizeUrl, h]

/-! ## Lemmas: branch equations of the two analyzers -/

theorem bizAnalyze_conn {fetch : String → BFetch} {url0 msg : String} (cy : Nat)
    (now : String) (hf : fetch (normalizeUrl url0) = .connError msg) :
    bizAnalyze fetch cy now url0 =
      bizError (normalizeUrl url0) ["Connection error: " ++ msg] := by
  simp only [bizAnalyze]
  rw [hf]

theorem bizAnalyze_ok {fetch : String → BFetch} {url0 : String} {status : Nat}
    {page : BizPage} (cy : Nat) (now : String)
    (hf : fetch (normalizeUrl url0) = .ok status page) :
    bizAnalyze fetch cy now url0 =
      bizFinish cy now (normalizeUrl url0) status page ([], 100) := by
  simp only [bizAnalyze]
  rw [hf]

theorem bizAnalyze_ssl_ok {fetch : String → BFetch} {url0 : String} {status : Nat}
    {page : BizPage} (cy : Nat) (now : String)
    (hf1 : fetch (normalizeUrl url0) = .sslError)
    (hf2 : fetch (replaceAll (normalizeUrl url0) "https://" "http://") = .ok status page) :
    bizAnalyze fetch cy now url0 =
      bizFinish cy now (replaceAll (normalizeUrl url0) "https://" "http://") status page
        (["HTTPS not available"], 100 - 20) := by
  simp only [bizAnalyze]
  rw [hf1, hf2]

theorem bizAnalyze_ssl_ssl {fetch : String → BFetch} {url0 : String} (cy : Nat)
    (now : String) (hf1 : fetch (normalizeUrl url0) = .sslError)
    (hf2 : fetch (replaceAll (normalizeUrl url0) "https://" "http://") = .sslError) :
    bizAnalyze fetch cy now url0 =
      bizError (replaceAll (normalizeUrl url0) "https://" "http://")
        ["Site not accessible"] := by
  simp only [bizAnalyze]
  rw [hf1, hf2]

theorem bizAnalyze_ssl_conn {fetch : String → BFetch} {url0 msg : String} (cy : Nat)
    (now : String) (hf1 : fetch (normalizeUrl url0) = .sslError)
    (hf2 : fetch (replaceAll (normalizeUrl url0) "https://" "http://") = .connError msg) :
    bizAnalyze fetch cy now url0 =
      bizError (replaceAll (normalizeUrl url0) "https://" "http://")
        ["Site not accessible"] := by
  simp only [bizAnalyze]
  rw [hf1, hf2]

theorem simpleAnalyze_ok {net : String → UrlOpen} {url0 content : String}
    (parse : String → SParsed) (cy : Nat) (now : String)
    (hf : fetch_url net (normalizeUrl url0) = .ok content) :
    simpleAnalyze net parse cy now url0 =
      simpleFinish cy now url0 (normalizeUrl url0) (parse content) ([], 100) := by
  simp only [simpleAnalyze]
  rw [hf]

theorem simpleAnalyze_fb_ok {net : String → UrlOpen} {url0 e content : String}
    (parse : String → SParsed) (cy : Nat) (now : String)
    (hf1 : fetch_url net (normalizeUrl url0) = .error e)
    (hu : strStarts (normalizeUrl url0) "https://" = true)
    (hf2 : fetch_url net (replaceAll (normalizeUrl url0) "https://" "http://") =
      .ok content) :
    simpleAnalyze net parse cy now url0 =
      simpleFinish cy now url0 (replaceAll (normalizeUrl url0) "https://" "http://")
        (parse content) (["HTTPS not available"], 100 - 20) := by
  simp only [simpleAnalyze]
  rw [hf1, if_pos hu, hf2]

theorem simpleAnalyze_fb_fail {net : String → UrlOpen} {url0 e e2 : String}
    (parse : String → SParsed) (cy : Nat) (now : String)
    (hf1 : fetch_url net (normalizeUrl url0) = .error e)
    (hu : strStarts (normalizeUrl url0) "https://" = true)
    (hf2 : fetch_url net (replaceAll (normalizeUrl url0) "https://" "http://") =
      .error e2) :
    simpleAnalyze net parse cy now url0 =
      simpleError url0 now ("Site not accessible: " ++ e2) := by
  simp only [simpleAnalyze]
  rw [hf1, if_pos hu, hf2]

theorem simpleAnalyze_nofb_fail {net : String → UrlOpen} {url0 e : String}
    (parse : String → SParsed) (cy : Nat) (now : String)
    (hf1 : fetch_url net (normalizeUrl url0) = .error e)
    (hu : strStarts (normalizeUrl url0) "https://" = false) :
    simpleAnalyze net parse cy now url0 = simpleError url0 now "Site not accessible" := by
  simp only [simpleAnalyze]
  rw [hf1, hu]
  rfl

theorem simpleFetchTrace_ok {net : String → UrlOpen} {url0 content : String}
    (hf : fetch_url net (normalizeUrl url0) = .ok content) :
    simpleFetchTrace net url0 = [normalizeUrl url0] := by
  simp only [simpleFetchTrace]
  rw [hf]

theorem simpleFetchTrace_err {net : String → UrlOpen} {url0 e : String}
    (hf : fetch_url net (normalizeUrl url0) = .error e) :
    simpleFetchTrace net url0 =
      if strStarts (normalizeUrl url0) "https://" = true then
        [normalizeUrl url0, replaceAll (normalizeUrl url0) "https://" "http://"]
      else [normalizeUrl url0] := by
  simp only [simpleFetchTrace]
  rw [hf]

/-! ## Lemmas: the produced records -/

theorem max0_lt_iff (x c : Int) (hc : 0 < c) : (max 0 x < c) ↔ (x < c) := by
  rw [max_lt_iff]
  constructor
  · exact fun h => h.2
  · exact fun h => ⟨hc, h⟩

theorem bizFinish_score (cy : Nat) (now url : String) (status : Nat) (p : BizPage)
    (st0 : List String × Int) (h : st0.2 = 100 - sumDed st0.1) :
    (bizFinish cy now url status p st0).quality_score =
      max 0 (100 - sumDed (bizFinish cy now url status p st0).issues) ∧
    0 ≤ (bizFinish cy now url status p st0).quality_score ∧
    (bizFinish cy now url status p st0).quality_score ≤ 100 := by
  have hs := bizChecks_snd cy url status p st0 h
  have hn := sumDed_nonneg (bizChecks cy url status p st0).1
  refine ⟨?_, ?_, ?_⟩
  · show max 0 (bizChecks cy url status p st0).2 =
      max 0 (100 - sumDed (bizChecks cy url status p st0).1)
    rw [hs]
  · exact le_max_left _ _
  · show max 0 (bizChecks cy url status p st0).2 ≤ 100
    rw [hs]
    exact max_le (by norm_num) (by omega)

theorem simpleFinish_score (cy : Nat) (now rawUrl url : String) (p : SParsed)
    (st0 : List String × Int) (h : st0.2 = 100 - sumDed st0.1) :
    (simpleFinish cy now rawUrl url p st0).quality_score =
      max 0 (100 - sumDed (simpleFinish cy now rawUrl url p st0).issues) ∧
    0 ≤ (simpleFinish cy now rawUrl url p st0).quality_score ∧
    (simpleFinish cy now rawUrl url p st0).quality_score ≤ 100 := by
  have hs := simpleChecks_snd cy url p st0 h
  have hn := sumDed_nonneg (simpleChecks cy url p st0).1
  refine ⟨?_, ?_, ?_⟩
  · show max 0 (simpleChecks cy url p st0).2 =
      max 0 (100 - sumDed (simpleChecks cy url p st0).1)
    rw [hs]
  · exact le_max_left _ _
  · show max 0 (simpleChecks cy url p st0).2 ≤ 100
    rw [hs]
    exact max_le (by norm_num) (by omega)

theorem bizFinish_flags (cy : Nat) (now url : String) (status : Nat) (p : BizPage)
    (st0 : List String × Int) :
    (bizFinish cy now url status p st0).needs_redesign =
      some (decide ((bizFinish cy now url status p st0).quality_score < 50)) ∧
    (bizFinish cy now url status p st0).is_hot_lead =
      some (decide ((bizFinish cy now url status p st0).quality_score < 30)) := by
  constructor
  · show some (decide ((bizChecks cy url status p st0).2 < 50)) =
      some (decide (max 0 (bizChecks cy url status p st0).2 < 50))
    rw [decide_eq_decide.mpr (max0_lt_iff _ 50 (by norm_num)).symm]
  · show some (decide ((bizChecks cy url status p st0).2 < 30)) =
      some (decide (max 0 (bizChecks cy url status p st0).2 < 30))
    rw [decide_eq_decide.mpr (max0_lt_iff _ 30 (by norm_num)).symm]

theorem simpleFinish_flags (cy : Nat) (now rawUrl url : String) (p : SParsed)
    (st0 : List String × Int) :
    (simpleFinish cy now rawUrl url p st0).needs_redesign =
      some (decide ((simpleFinish cy now rawUrl url p st0).quality_score < 50)) ∧
    (simpleFinish cy now rawUrl url p st0).is_hot_lead =
      some (decide ((simpleFinish cy now rawUrl url p st0).quality_score < 30)) :=
  ⟨rfl, rfl⟩

/-! ## Lemmas: issue strings are pairwise distinguishable -/

theorem natStr_head (n : Nat) : ∃ c r, (natStr n).data = c :: r ∧ c.isDigit = true := by
  cases h : (natStr n).data with
  | nil => exact absurd h (natStr_ne_nil n)
  | cons c r =>
    refine ⟨c, r, rfl, ?_⟩
    exact natStr_digits c (by rw [h]; exact List.mem_cons_self _ _)

theorem contact_ne_http (n : Nat) : "No contact info found" ≠ "HTTP " ++ natStr n := by
  intro he
  have hd := ded_http n
  rw [← he] at hd
  exact absurd hd (by decide)

theorem contact_ne_copy (y : Nat) :
    "No contact info found" ≠ "Outdated copyright: " ++ natStr y := by
  intro he
  have hd := ded_copy y
  rw [← he] at hd
  exact absurd hd (by decide)

theorem contact_ne_parse (m : String) :
    "No contact info found" ≠ "HTML parsing error: " ++ m := by
  intro he
  have hd := ded_parse m
  rw [← he] at hd
  exact absurd hd (by decide)

theorem contact_ne_broken (b : Nat) :
    "No contact info found" ≠ natStr b ++ " broken images" := by
  intro he
  obtain ⟨c, r, hnd, hc⟩ := natStr_head b
  have hdata := congrArg String.data he
  rw [String.data_append, hnd, List.cons_append] at hdata
  have hh : some 'N' = some c := congrArg List.head? hdata
  cases hh
  exact absurd hc (by decide)

/-! ## Lemmas: membership in the produced issue lists -/

theorem step_mem_mono {x : String} (c : Bool) (m : String) (d : Int)
    {st : List String × Int} (h : x ∈ st.1) : x ∈ (step c m d st).1 := by
  cases c
  · simpa [step] using h
  · simp only [step, if_pos rfl]
    exact List.mem_append_left _ h

theorem step_mem_self (m : String) {c : Bool} (hc : c = true) (d : Int)
    (st : List String × Int) : m ∈ (step c m d st).1 := by
  subst hc
  simp only [step, if_pos rfl]
  exact List.mem_append_right _ (List.mem_singleton.mpr rfl)

theorem mem_bizChecks_of_mem (x : String) (cy : Nat) (url : String) (status : Nat)
    (p : BizPage) (st0 : List String × Int) (h : x ∈ st0.1) :
    x ∈ (bizChecks cy url status p st0).1 := by
  unfold bizChecks
  exact step_mem_mono _ _ _ (step_mem_mono _ _ _ (step_mem_mono _ _ _ (step_mem_mono _ _ _
    (step_mem_mono _ _ _ (step_mem_mono _ _ _ (step_mem_mono _ _ _ (step_mem_mono _ _ _
    (step_mem_mono _ _ _ (step_mem_mono _ _ _ (step_mem_mono _ _ _ h))))))))))

theorem mem_bizChecks_noHttps (cy : Nat) (url : String) (status : Nat) (p : BizPage)
    (st0 : List String × Int) (hu : strStarts url "https://" = false) :
    "No HTTPS" ∈ (bizChecks cy url status p st0).1 := by
  have hcond : (! strStarts url "https://") = true := by rw [hu]; rfl
  unfold bizChecks
  exact step_mem_mono _ _ _ (step_mem_mono _ _ _ (step_mem_mono _ _ _ (step_mem_mono _ _ _
    (step_mem_mono _ _ _ (step_mem_mono _ _ _ (step_mem_mono _ _ _ (step_mem_mono _ _ _
    (step_mem_mono _ _ _ (step_mem_self _ hcond _ _)))))))))

theorem mem_bizChecks_http_issue (cy : Nat) (url : String) (status : Nat) (p : BizPage)
    (st0 : List String × Int) (hs : status ≠ 200) :
    ("HTTP " ++ natStr status) ∈ (bizChecks cy url status p st0).1 := by
  have hcond : decide (status ≠ 200) = true := by simp [hs]
  unfold bizChecks
  exact step_mem_mono _ _ _ (step_mem_mono _ _ _ (step_mem_mono _ _ _ (step_mem_mono _ _ _
    (step_mem_mono _ _ _ (step_mem_mono _ _ _ (step_mem_mono _ _ _ (step_mem_mono _ _ _
    (step_mem_mono _ _ _ (step_mem_mono _ _ _ (step_mem_self _ hcond _ _))))))))))

theorem mem_simpleChecks_of_mem (x : String) (cy : Nat) (url : String) (p : SParsed)
    (st0 : List String × Int) (h : x ∈ st0.1) :
    x ∈ (simpleChecks cy url p st0).1 := by
  unfold simpleChecks
  exact step_mem_mono _ _ _ (step_mem_mono _ _ _ (step_mem_mono _ _ _ (step_mem_mono _ _ _
    (step_mem_mono _ _ _ (step_mem_mono _ _ _ (step_mem_mono _ _ _ h))))))

theorem mem_simpleChecks_noHttps (cy : Nat) (url : String) (p : SParsed)
    (st0 : List String × Int) (hu : strStarts url "https://" = false) :
    "No HTTPS" ∈ (simpleChecks cy url p st0).1 := by
  have hcond : (! strStarts url "https://") = true := by rw [hu]; rfl
  unfold simpleChecks
  exact step_mem_mono _ _ _ (step_mem_mono _ _ _ (step_mem_mono _ _ _ (step_mem_mono _ _ _
    (step_mem_mono _ _ _ (step_mem_self _ hcond _ _)))))

/-! ## Lemmas: the contact-info check at the record level -/

theorem bizChecks_contact_iff (cy : Nat) (url : String) (status : Nat) (p : BizPage)
    (st0 : List String × Int) (h0 : "No contact info found" ∉ st0.1) :
    (("No contact info found" ∈ (bizChecks cy url status p st0).1) ↔
      ((reFindAll phonePat p.text).isEmpty && (reFindAll emailPat p.text).isEmpty) = true) := by
  unfold bizChecks
  simp only [mem_step_iff]
  simp [h0, contact_ne_http, contact_ne_copy, contact_ne_broken]

theorem simpleChecks_contact_iff (cy : Nat) (url : String) (p : SParsed)
    (st0 : List String × Int) (h0 : "No contact info found" ∉ st0.1) :
    (("No contact info found" ∈ (simpleChecks cy url p st0).1) ↔
      ((reSearch phonePat p.text).isNone && (reSearch emailPat p.text).isNone) = true) := by
  unfold simpleChecks
  simp only [mem_step_iff]
  simp [h0, contact_ne_parse, contact_ne_copy]

theorem bizFinish_contact_iff (cy : Nat) (now url : String) (status : Nat) (p : BizPage)
    (st0 : List String × Int) (h0 : "No contact info found" ∉ st0.1) :
    (("No contact info found" ∈ (bizFinish cy now url status p st0).issues) ↔
      ((bizFinish cy now url status p st0).phone = some "" ∧
        (bizFinish cy now url status p st0).email = some "")) := by
  have h1 := bizChecks_contact_iff cy url status p st0 h0
  show ("No contact info found" ∈ (bizChecks cy url status p st0).1) ↔
    (some ((reSearch phonePat p.text).getD "") = some "" ∧
      some ((reSearch emailPat p.text).getD "") = some "")
  rw [h1, Bool.and_eq_true, reFindAll_isEmpty_iff, reFindAll_isEmpty_iff]
  simp only [Option.some.injEq]
  rw [reSearch_getD_empty_iff phonePat rfl p.text, reSearch_getD_empty_iff emailPat rfl p.text]

theorem simpleFinish_contact_iff (cy : Nat) (now rawUrl url : String) (p : SParsed)
    (st0 : List String × Int) (h0 : "No contact info found" ∉ st0.1) :
    (("No contact info found" ∈ (simpleFinish cy now rawUrl url p st0).issues) ↔
      ((simpleFinish cy now rawUrl url p st0).phone = some "" ∧
        (simpleFinish cy now rawUrl url p st0).email = some "")) := by
  have h1 := simpleChecks_contact_iff cy url p st0 h0
  show ("No contact info found" ∈ (simpleChecks cy url p st0).1) ↔
    (some ((reSearch phonePat p.text).getD "") = some "" ∧
      some ((reSearch emailPat p.text).getD "") = some "")
  rw [h1, Bool.and_eq_true, Option.isNone_iff_eq_none, Option.isNone_iff_eq_none]
  simp only [Option.some.injEq]
  rw [reSearch_getD_empty_iff phonePat rfl p.text, reSearch_getD_empty_iff emailPat rfl p.text]

/-! ## Lemmas: the batch driver -/

theorem batch_analyze_eq_map (f : String → AnalysisResult) (urls : List String) :
    batch_analyze f urls = urls.map f := by
  induction urls with
  | nil => rfl
  | cons u rest ih => simp [batch_analyze, ih]

theorem bizError_status (url : String) (issues : List String) :
    (bizError url issues).status = "error" := rfl

theorem simpleError_status (u now m : String) : (simpleError u now m).status = "error" := rfl

/-! ## The claims -/

/-- Claim C9: for every input URL list, including the empty list, batch_analyze (of
either analyzer) returns a result list of exactly the same length, with the record at
index i produced from the URL at index i, and the empty list yields the empty batch;
the per-URL analysis is a total function, so the failure of a single URL (an error
record) never aborts the batch. -/
theorem C9_batch_aligned :
    (∀ (fetch : String → BFetch) (cy : Nat) (now : String) (urls : List String),
      (batch_analyze (bizAnalyze fetch cy now) urls).length = urls.length ∧
      (∀ i : Nat, (batch_analyze (bizAnalyze fetch cy now) urls)[i]? =
        (urls[i]?).map (bizAnalyze fetch cy now)) ∧
      batch_analyze (bizAnalyze fetch cy now) [] = []) ∧
    (∀ (net : String → UrlOpen) (parse : String → SParsed) (cy : Nat) (now : String)
      (urls : List String),
      (batch_analyze (simpleAnalyze net parse cy now) urls).length = urls.length ∧
      (∀ i : Nat, (batch_analyze (simpleAnalyze net parse cy now) urls)[i]? =
        (urls[i]?).map (simpleAnalyze net parse cy now)) ∧
      batch_analyze (simpleAnalyze net parse cy now) [] = []) := by
  constructor
  · intro fetch cy now urls
    refine ⟨?_, ?_, rfl⟩
    · rw [batch_analyze_eq_map, List.length_map]
    · intro i
      rw [batch_analyze_eq_map, List.getElem?_map]
  · intro net parse cy now urls
    refine ⟨?_, ?_, rfl⟩
    · rw [batch_analyze_eq_map, List.length_map]
    · intro i
      rw [batch_analyze_eq_map, List.getElem?_map]

/-- Claim C1: for every AnalysisResult (of either analyzer) with status analyzed, the
recorded quality_score equals max 0 (100 - sum of the fixed deductions attached to the
issue strings present in its issues list), and hence 0 ≤ quality_score ≤ 100. -/
theorem C1_score_explained :
    (∀ (fetch : String → BFetch) (cy : Nat) (now url0 : String),
      (bizAnalyze fetch cy now url0).status = "analyzed" →
      (bizAnalyze fetch cy now url0).quality_score =
        max 0 (100 - sumDed (bizAnalyze fetch cy now url0).issues) ∧
      0 ≤ (bizAnalyze fetch cy now url0).quality_score ∧
      (bizAnalyze fetch cy now url0).quality_score ≤ 100) ∧
    (∀ (net : String → UrlOpen) (parse : String → SParsed) (cy : Nat) (now url0 : String),
      (simpleAnalyze net parse cy now url0).status = "analyzed" →
      (simpleAnalyze net parse cy now url0).quality_score =
        max 0 (100 - sumDed (simpleAnalyze net parse cy now url0).issues) ∧
      0 ≤ (simpleAnalyze net parse cy now url0).quality_score ∧
      (simpleAnalyze net parse cy now url0).quality_score ≤ 100) := by
  constructor
  · intro fetch cy now url0 hst
    cases hf : fetch (normalizeUrl url0) with
    | connError msg =>
      rw [bizAnalyze_conn cy now hf, bizError_status] at hst
      exact absurd hst (by decide)
    | sslError =>
      cases hf2 : fetch (replaceAll (normalizeUrl url0) "https://" "http://") with
      | ok status page =>
        rw [bizAnalyze_ssl_ok cy now hf hf2]
        exact bizFinish_score _ _ _ _ _ _ (by decide)
      | sslError =>
        rw [bizAnalyze_ssl_ssl cy now hf hf2, bizError_status] at hst
        exact absurd hst (by decide)
      | connError m =>
        rw [bizAnalyze_ssl_conn cy now hf hf2, bizError_status] at hst
        exact absurd hst (by decide)
    | ok status page =>
      rw [bizAnalyze_ok cy now hf]
      exact bizFinish_score _ _ _ _ _ _ (by decide)
  · intro net parse cy now url0 hst
    cases hf : fetch_url net (normalizeUrl url0) with
    | ok content =>
      rw [simpleAnalyze_ok parse cy now hf]
      exact simpleFinish_score _ _ _ _ _ _ (by decide)
    | error e =>
      cases hu : strStarts (normalizeUrl url0) "https://" with
      | false =>
        rw [simpleAnalyze_nofb_fail parse cy now hf hu, simpleError_status] at hst
        exact absurd hst (by decide)
      | true =>
        cases hf2 : fetch_url net (replaceAll (normalizeUrl url0) "https://" "http://") with
        | ok content =>
          rw [simpleAnalyze_fb_ok parse cy now hf hu hf2]
          exact simpleFinish_score _ _ _ _ _ _ (by decide)
        | error e2 =>
          rw [simpleAnalyze_fb_fail parse cy now hf hu hf2, simpleError_status] at hst
          exact absurd hst (by decide)

theorem C1_score_explained_witness :
    (bizAnalyze fetchScenA 2025 "d" "http://ex.com").status = "analyzed" ∧
    (bizAnalyze fetchScenA 2025 "d" "http://ex.com").quality_score =
      max 0 (100 - sumDed (bizAnalyze fetchScenA 2025 "d" "http://ex.com").issues) ∧
    (simpleAnalyze netOk parseOk 2025 "d" "http://ex.com").status = "analyzed" ∧
    (simpleAnalyze netOk parseOk 2025 "d" "http://ex.com").quality_score =
      max 0 (100 - sumDed (simpleAnalyze netOk parseOk 2025 "d" "http://ex.com").issues) :=
  ⟨by decide,
   (C1_score_explained.1 fetchScenA 2025 "d" "http://ex.com" (by decide)).1,
   by decide,
   (C1_score_explained.2 netOk parseOk 2025 "d" "http://ex.com" (by decide)).1⟩

theorem bizFinish_status (cy : Nat) (now url : String) (status : Nat) (p : BizPage)
    (st0 : List String × Int) : (bizFinish cy now url status p st0).status = "analyzed" := rfl

theorem error_status_not_analyzed {r : AnalysisResult} (h : r.status = "error") :
    ¬(r.status = "analyzed") := by
  rw [h]
  decide

theorem simpleFinish_status (cy : Nat) (now rawUrl url : String) (p : SParsed)
    (st0 : List String × Int) :
    (simpleFinish cy now rawUrl url p st0).status = "analyzed" := rfl

theorem bizFinish_flag_imp (cy : Nat) (now url : String) (status : Nat) (p : BizPage)
    (st0 : List String × Int)
    (h : (bizFinish cy now url status p st0).is_hot_lead = some true) :
    (bizFinish cy now url status p st0).needs_redesign = some true := by
  have h' : decide ((bizChecks cy url status p st0).2 < 30) = true :=
    Option.some.inj h
  have hlt : (bizChecks cy url status p st0).2 < 30 := of_decide_eq_true h'
  show some (decide ((bizChecks cy url status p st0).2 < 50)) = some true
  have : (bizChecks cy url status p st0).2 < 50 := by omega
  rw [decide_eq_true this]

theorem simpleFinish_flag_imp (cy : Nat) (now rawUrl url : String) (p : SParsed)
    (st0 : List String × Int)
    (h : (simpleFinish cy now rawUrl url p st0).is_hot_lead = some true) :
    (simpleFinish cy now rawUrl url p st0).needs_redesign = some true := by
  have h' : decide (max 0 (simpleChecks cy url p st0).2 < 30) = true :=
    Option.some.inj h
  have hlt : max 0 (simpleChecks cy url p st0).2 < 30 := of_decide_eq_true h'
  show some (decide (max 0 (simpleChecks cy url p st0).2 < 50)) = some true
  have : max 0 (simpleChecks cy url p st0).2 < 50 := by omega
  rw [decide_eq_true this]

/-- Claim C2 as stated is false on the code: error records carry no needs_redesign or
is_hot_lead keys at all.  This record has quality_score 0 (so the claimed equality
would force needs_redesign = true and is_hot_lead = true), yet both fields are absent
(none), in both variants. -/
theorem C2_flags_counterexample :
    (bizAnalyze fetchRefused 2025 "d" "https://ex.com").quality_score = 0 ∧
    (bizAnalyze fetchRefused 2025 "d" "https://ex.com").needs_redesign = none ∧
    (bizAnalyze fetchRefused 2025 "d" "https://ex.com").is_hot_lead = none ∧
    (simpleAnalyze net404 parseOk 2025 "d" "http://ex.com").quality_score = 0 ∧
    (simpleAnalyze net404 parseOk 2025 "d" "http://ex.com").needs_redesign = none ∧
    (simpleAnalyze net404 parseOk 2025 "d" "http://ex.com").is_hot_lead = none := by
  decide

/-- Claim C2 (amended): for every record with status analyzed, needs_redesign equals
(quality_score < 50) and is_hot_lead equals (quality_score < 30), where quality_score
is the final recorded clamped score; error records carry neither flag; and the
implication is_hot_lead = true → needs_redesign = true holds for every record of
either variant (vacuously on error records). -/
theorem C2_flags :
    (∀ (fetch : String → BFetch) (cy : Nat) (now url0 : String),
      ((bizAnalyze fetch cy now url0).status = "analyzed" →
        (bizAnalyze fetch cy now url0).needs_redesign =
          some (decide ((bizAnalyze fetch cy now url0).quality_score < 50)) ∧
        (bizAnalyze fetch cy now url0).is_hot_lead =
          some (decide ((bizAnalyze fetch cy now url0).quality_score < 30))) ∧
      ((bizAnalyze fetch cy now url0).status = "error" →
        (bizAnalyze fetch cy now url0).needs_redesign = none ∧
        (bizAnalyze fetch cy now url0).is_hot_lead = none) ∧
      ((bizAnalyze fetch cy now url0).is_hot_lead = some true →
        (bizAnalyze fetch cy now url0).needs_redesign = some true)) ∧
    (∀ (net : String → UrlOpen) (parse : String → SParsed) (cy : Nat) (now url0 : String),
      ((simpleAnalyze net parse cy now url0).status = "analyzed" →
        (simpleAnalyze net parse cy now url0).needs_redesign =
          some (decide ((simpleAnalyze net parse cy now url0).quality_score < 50)) ∧
        (simpleAnalyze net parse cy now url0).is_hot_lead =
          some (decide ((simpleAnalyze net parse cy now url0).quality_score < 30))) ∧
      ((simpleAnalyze net parse cy now url0).status = "error" →
        (simpleAnalyze net parse cy now url0).needs_redesign = none ∧
        (simpleAnalyze net parse cy now url0).is_hot_lead = none) ∧
      ((simpleAnalyze net parse cy now url0).is_hot_lead = some true →
        (simpleAnalyze net parse cy now url0).needs_redesign = some true)) := by
  constructor
  · intro fetch cy now url0
    cases hf : fetch (normalizeUrl url0) with
    | connError msg =>
      rw [bizAnalyze_conn cy now hf]
      exact ⟨fun h => absurd h (error_status_not_analyzed (bizError_status _ _)),
        fun _ => ⟨rfl, rfl⟩, fun h => Option.noConfusion h⟩
    | sslError =>
      cases hf2 : fetch (replaceAll (normalizeUrl url0) "https://" "http://") with
      | ok status page =>
        rw [bizAnalyze_ssl_ok cy now hf hf2]
        exact ⟨fun _ => bizFinish_flags _ _ _ _ _ _,
          fun h => absurd h (by rw [bizFinish_status]; decide),
          bizFinish_flag_imp _ _ _ _ _ _⟩
      | sslError =>
        rw [bizAnalyze_ssl_ssl cy now hf hf2]
        exact ⟨fun h => absurd h (error_status_not_analyzed (bizError_status _ _)),
          fun _ => ⟨rfl, rfl⟩, fun h => Option.noConfusion h⟩
      | connError m =>
        rw [bizAnalyze_ssl_conn cy now hf hf2]
        exact ⟨fun h => absurd h (error_status_not_analyzed (bizError_status _ _)),
          fun _ => ⟨rfl, rfl⟩, fun h => Option.noConfusion h⟩
    | ok status page =>
      rw [bizAnalyze_ok cy now hf]
      exact ⟨fun _ => bizFinish_flags _ _ _ _ _ _,
        fun h => absurd h (by rw [bizFinish_status]; decide),
        bizFinish_flag_imp _ _ _ _ _ _⟩
  · intro net parse cy now url0
    cases hf : fetch_url net (normalizeUrl url0) with
    | ok content =>
      rw [simpleAnalyze_ok parse cy now hf]
      exact ⟨fun _ => simpleFinish_flags _ _ _ _ _ _,
        fun h => absurd h (by rw [simpleFinish_status]; decide),
        simpleFinish_flag_imp _ _ _ _ _ _⟩
    | error e =>
      cases hu : strStarts (normalizeUrl url0) "https://" with
      | false =>
        rw [simpleAnalyze_nofb_fail parse cy now hf hu]
        exact ⟨fun h => absurd h (error_status_not_analyzed (simpleError_status _ _ _)),
          fun _ => ⟨rfl, rfl⟩, fun h => Option.noConfusion h⟩
      | true =>
        cases hf2 : fetch_url net (replaceAll (normalizeUrl url0) "https://" "http://") with
        | ok content =>
          rw [simpleAnalyze_fb_ok parse cy now hf hu hf2]
          exact ⟨fun _ => simpleFinish_flags _ _ _ _ _ _,
            fun h => absurd h (by rw [simpleFinish_status]; decide),
            simpleFinish_flag_imp _ _ _ _ _ _⟩
        | error e2 =>
          rw [simpleAnalyze_fb_fail parse cy now hf hu hf2]
          exact ⟨fun h => absurd h (error_status_not_analyzed (simpleError_status _ _ _)),
            fun _ => ⟨rfl, rfl⟩, fun h => Option.noConfusion h⟩

theorem C2_flags_witness :
    (bizAnalyze fetchScenA 2025 "d" "http://ex.com").needs_redesign = some false ∧
    (bizAnalyze fetchRefused 2025 "d" "https://ex.com").needs_redesign = none ∧
    (simpleAnalyze netOk parseOk 2025 "d" "ex.com").is_hot_lead = some false ∧
    (simpleAnalyze net404 parseOk 2025 "d" "http://ex.com").is_hot_lead = none := by
  have h1 := (C2_flags.1 fetchScenA 2025 "d" "http://ex.com").1 (by decide)
  have h2 := (C2_flags.1 fetchRefused 2025 "d" "https://ex.com").2.1 (by decide)
  have h3 := (C2_flags.2 netOk parseOk 2025 "d" "ex.com").1 (by decide)
  have h4 := (C2_flags.2 net404 parseOk 2025 "d" "http://ex.com").2.1 (by decide)
  exact ⟨by rw [h1.1]; decide, h2.1, by rw [h3.2]; decide, h4.2⟩

/-- Claim C3 as stated is false on the code: with exactly the Scenario A checks firing
the score is 50, and since needs_redesign is the strict comparison score < 50, the
record has needs_redesign = false, not true as the claim says.  This concrete page is
reachable only over http://, has no viewport meta, has title "Home" and triggers no
other check, giving issues and score exactly as claimed, but needs_redesign = false. -/
theorem C3_scenarioA_counterexample :
    (bizAnalyze fetchScenA 2025 "d" "http://ex.com").issues =
      ["No HTTPS", "No mobile viewport", "Poor/missing page title"] ∧
    (bizAnalyze fetchScenA 2025 "d" "http://ex.com").quality_score = 50 ∧
    (bizAnalyze fetchScenA 2025 "d" "http://ex.com").needs_redesign = some false ∧
    (bizAnalyze fetchScenA 2025 "d" "http://ex.com").is_hot_lead = some false := by
  decide

/-- Claim C3 (amended): for a page fetched over http:// with status 200, no viewport
meta and a title that strips to "Home" (4 characters), with no other check triggered,
the issues are exactly No HTTPS, No mobile viewport, Poor/missing page title, the
score is 100 - 20 - 15 - 15 = 50, and the record has needs_redesign = false (the
threshold comparison is strict) and is_hot_lead = false. -/
theorem C3_scenarioA (fetch : String → BFetch) (cy : Nat) (now url0 : String)
    (page : BizPage) (t : String)
    (hu : strStarts url0 "http://" = true)
    (hf : fetch url0 = .ok 200 page)
    (hv : page.hasViewport = false)
    (ht : page.title = some t) (htt : strStrip t = "Home")
    (hcy : ((yearRange cy).find? fun y =>
      strContains page.text ("© " ++ natStr y) ||
        strContains page.text ("copyright " ++ natStr y)) = none)
    (hlo : strContains page.text "lorem ipsum" = false)
    (hco : (constructionPhrasesBiz.any fun ph => strContains page.text ph) = false)
    (hob : page.hasObjectEmbed = false)
    (hch : page.hasCharsetMeta = true)
    (hcontact : ((reFindAll phonePat page.text).isEmpty &&
      (reFindAll emailPat page.text).isEmpty) = false)
    (hbr : countBroken page.imgProbes = 0) :
    (bizAnalyze fetch cy now url0).issues =
      ["No HTTPS", "No mobile viewport", "Poor/missing page title"] ∧
    (bizAnalyze fetch cy now url0).quality_score = 100 - 20 - 15 - 15 ∧
    (bizAnalyze fetch cy now url0).needs_redesign = some false ∧
    (bizAnalyze fetch cy now url0).is_hot_lead = some false := by
  have hnorm := normalizeUrl_keep_http hu
  have hf2 : fetch (normalizeUrl url0) = .ok 200 page := by rw [hnorm]; exact hf
  have hhttps : strStarts (normalizeUrl url0) "https://" = false := by
    rw [hnorm]; exact strStarts_https_false_of_http hu
  have htb : (match page.title with
      | none => true
      | some t => decide ((strStrip t).length < 10)) = true := by
    rw [ht]
    show decide ((strStrip t).length < 10) = true
    rw [htt]
    decide
  have hst : bizChecks cy (normalizeUrl url0) 200 page ([], 100) =
      (["No HTTPS", "No mobile viewport", "Poor/missing page title"], 50) := by
    unfold bizChecks
    rw [hcy]
    simp only [step, hhttps, hv, hlo, hco, hob, hch, htb, hcontact, hbr]
    norm_num
  rw [bizAnalyze_ok cy now hf2]
  refine ⟨?_, ?_, ?_, ?_⟩
  · show (bizChecks cy (normalizeUrl url0) 200 page ([], 100)).1 = _
    rw [hst]
  · show max 0 (bizChecks cy (normalizeUrl url0) 200 page ([], 100)).2 = _
    rw [hst]
    decide
  · show some (decide ((bizChecks cy (normalizeUrl url0) 200 page ([], 100)).2 < 50)) = _
    rw [hst]
    decide
  · show some (decide ((bizChecks cy (normalizeUrl url0) 200 page ([], 100)).2 < 30)) = _
    rw [hst]
    decide

theorem C3_scenarioA_witness :
    (bizAnalyze fetchScenA 2025 "d" "http://ex.com").quality_score = 100 - 20 - 15 - 15 ∧
    (bizAnalyze fetchScenA 2025 "d" "http://ex.com").needs_redesign = some false :=
  have h := C3_scenarioA fetchScenA 2025 "d" "http://ex.com" pageScenA "Home"
    (by decide) (by decide) (by decide) (by decide) (by decide) (by decide) (by decide)
    (by decide) (by decide) (by decide) (by decide) (by decide)
  ⟨h.2.1, h.2.2.1⟩

theorem analyzed_status_not_error {r : AnalysisResult} (h : r.status = "analyzed") :
    ¬(r.status = "error") := by
  rw [h]
  decide

/-- Claim C6 as stated is false on the code: this business-variant error record has
quality_score 0 and a single diagnostic issue, but carries none of needs_redesign,
is_hot_lead, business_name, phone, email, analysis_date; the simple-variant error
record also lacks both classifier flags. -/
theorem C6_error_shape_counterexample :
    (bizAnalyze fetchRefused 2025 "d" "https://ex.com").status = "error" ∧
    (bizAnalyze fetchRefused 2025 "d" "https://ex.com").needs_redesign = none ∧
    (bizAnalyze fetchRefused 2025 "d" "https://ex.com").is_hot_lead = none ∧
    (bizAnalyze fetchRefused 2025 "d" "https://ex.com").business_name = none ∧
    (bizAnalyze fetchRefused 2025 "d" "https://ex.com").phone = none ∧
    (bizAnalyze fetchRefused 2025 "d" "https://ex.com").email = none ∧
    (bizAnalyze fetchRefused 2025 "d" "https://ex.com").analysis_date = none ∧
    (simpleAnalyze net404 parseOk 2025 "d" "http://ex.com").status = "error" ∧
    (simpleAnalyze net404 parseOk 2025 "d" "http://ex.com").needs_redesign = none ∧
    (simpleAnalyze net404 parseOk 2025 "d" "http://ex.com").is_hot_lead = none := by
  decide

/-- Claim C6 (amended): every error record of either variant has quality_score 0 and
an issues list of exactly one diagnostic string, but its field set differs from a
successful record: both variants omit needs_redesign and is_hot_lead, and the
business variant also omits business_name, phone, email and analysis_date, while the
simple variant keeps its initial empty strings and its analysis date. -/
theorem C6_error_shape :
    (∀ (fetch : String → BFetch) (cy : Nat) (now url0 : String),
      (bizAnalyze fetch cy now url0).status = "error" →
      (bizAnalyze fetch cy now url0).quality_score = 0 ∧
      (bizAnalyze fetch cy now url0).issues.length = 1 ∧
      (bizAnalyze fetch cy now url0).needs_redesign = none ∧
      (bizAnalyze fetch cy now url0).is_hot_lead = none ∧
      (bizAnalyze fetch cy now url0).business_name = none ∧
      (bizAnalyze fetch cy now url0).phone = none ∧
      (bizAnalyze fetch cy now url0).email = none ∧
      (bizAnalyze fetch cy now url0).analysis_date = none) ∧
    (∀ (net : String → UrlOpen) (parse : String → SParsed) (cy : Nat) (now url0 : String),
      (simpleAnalyze net parse cy now url0).status = "error" →
      (simpleAnalyze net parse cy now url0).quality_score = 0 ∧
      (simpleAnalyze net parse cy now url0).issues.length = 1 ∧
      (simpleAnalyze net parse cy now url0).needs_redesign = none ∧
      (simpleAnalyze net parse cy now url0).is_hot_lead = none ∧
      (simpleAnalyze net parse cy now url0).business_name = some "" ∧
      (simpleAnalyze net parse cy now url0).phone = some "" ∧
      (simpleAnalyze net parse cy now url0).email = some "" ∧
      (simpleAnalyze net parse cy now url0).analysis_date = some now) := by
  constructor
  · intro fetch cy now url0 hst
    cases hf : fetch (normalizeUrl url0) with
    | connError msg =>
      rw [bizAnalyze_conn cy now hf]
      exact ⟨rfl, rfl, rfl, rfl, rfl, rfl, rfl, rfl⟩
    | sslError =>
      cases hf2 : fetch (replaceAll (normalizeUrl url0) "https://" "http://") with
      | ok status page =>
        rw [bizAnalyze_ssl_ok cy now hf hf2] at hst
        exact absurd hst (analyzed_status_not_error (bizFinish_status _ _ _ _ _ _))
      | sslError =>
        rw [bizAnalyze_ssl_ssl cy now hf hf2]
        exact ⟨rfl, rfl, rfl, rfl, rfl, rfl, rfl, rfl⟩
      | connError m =>
        rw [bizAnalyze_ssl_conn cy now hf hf2]
        exact ⟨rfl, rfl, rfl, rfl, rfl, rfl, rfl, rfl⟩
    | ok status page =>
      rw [bizAnalyze_ok cy now hf] at hst
      exact absurd hst (analyzed_status_not_error (bizFinish_status _ _ _ _ _ _))
  · intro net parse cy now url0 hst
    cases hf : fetch_url net (normalizeUrl url0) with
    | ok content =>
      rw [simpleAnalyze_ok parse cy now hf] at hst
      exact absurd hst (analyzed_status_not_error (simpleFinish_status _ _ _ _ _ _))
    | error e =>
      cases hu : strStarts (normalizeUrl url0) "https://" with
      | false =>
        rw [simpleAnalyze_nofb_fail parse cy now hf hu]
        exact ⟨rfl, rfl, rfl, rfl, rfl, rfl, rfl, rfl⟩
      | true =>
        cases hf2 : fetch_url net (replaceAll (normalizeUrl url0) "https://" "http://") with
        | ok content =>
          rw [simpleAnalyze_fb_ok parse cy now hf hu hf2] at hst
          exact absurd hst (analyzed_status_not_error (simpleFinish_status _ _ _ _ _ _))
        | error e2 =>
          rw [simpleAnalyze_fb_fail parse cy now hf hu hf2]
          exact ⟨rfl, rfl, rfl, rfl, rfl, rfl, rfl, rfl⟩

theorem C6_error_shape_witness :
    (bizAnalyze fetchRefused 2025 "d" "https://ex.com").quality_score = 0 ∧
    (bizAnalyze fetchRefused 2025 "d" "https://ex.com").issues.length = 1 ∧
    (simpleAnalyze net404 parseOk 2025 "d" "http://ex.com").quality_score = 0 ∧
    (simpleAnalyze net404 parseOk 2025 "d" "http://ex.com").issues.length = 1 :=
  have h1 := C6_error_shape.1 fetchRefused 2025 "d" "https://ex.com" (by decide)
  have h2 := C6_error_shape.2 net404 parseOk 2025 "d" "http://ex.com" (by decide)
  ⟨h1.1, h1.2.1, h2.1, h2.2.1⟩

/-- Claim C5 as stated is false on the code: in the business variant a primary https
fetch that fails with an ordinary connection exception (not an SSLError) is never
retried — the trace contains exactly one attempt and the analysis ends as an error
record — although the claim demands exactly one http retry for any reason of
failure. -/
theorem C5_retry_counterexample :
    strStarts (normalizeUrl "https://ex.com") "https://" = true ∧
    fetchRefused (normalizeUrl "https://ex.com") = .connError "refused" ∧
    bizFetchTrace fetchRefused "https://ex.com" = ["https://ex.com"] ∧
    (bizFetchTrace fetchRefused "https://ex.com").length = 1 ∧
    (bizAnalyze fetchRefused 2025 "d" "https://ex.com").status = "error" := by
  decide

/-- Claim C5 (amended): the retry policy, exactly as implemented.  In the business
variant only an SSLError on the primary attempt triggers the single retry with the
scheme rewritten to http:// (any other failure yields an error record with no retry).
In the simple variant any primary failure of a URL whose normalized form starts with
https:// triggers exactly one rewritten retry, and a URL already on http:// is never
retried.  In both variants no more than two fetch attempts ever occur. -/
theorem C5_retry_policy :
    (∀ (fetch : String → BFetch) (url0 : String),
      bizFetchTrace fetch url0 =
        (match fetch (normalizeUrl url0) with
          | .sslError =>
            [normalizeUrl url0, replaceAll (normalizeUrl url0) "https://" "http://"]
          | _ => [normalizeUrl url0]) ∧
      (bizFetchTrace fetch url0).length ≤ 2) ∧
    (∀ (net : String → UrlOpen) (url0 : String),
      simpleFetchTrace net url0 =
        (match fetch_url net (normalizeUrl url0) with
          | .ok _ => [normalizeUrl url0]
          | .error _ =>
            if strStarts (normalizeUrl url0) "https://" = true then
              [normalizeUrl url0, replaceAll (normalizeUrl url0) "https://" "http://"]
            else [normalizeUrl url0]) ∧
      (simpleFetchTrace net url0).length ≤ 2) := by
  constructor
  · intro fetch url0
    constructor
    · cases hf : fetch (normalizeUrl url0) <;> simp [bizFetchTrace, hf]
    · cases hf : fetch (normalizeUrl url0) <;> simp [bizFetchTrace, hf]
  · intro net url0
    constructor
    · cases hf : fetch_url net (normalizeUrl url0) <;> simp [simpleFetchTrace, hf]
    · cases hf : fetch_url net (normalizeUrl url0) with
      | ok content => simp [simpleFetchTrace, hf]
      | error e =>
        simp only [simpleFetchTrace, hf]
        split <;> simp

/-- Claim C4 as stated is false on the code: in the simple variant an HTTP response
with a non-2xx status raises HTTPError inside fetch_url, which the analyzer treats
as a fetch failure — here a 404 on an http:// URL produces an error record, not an
analyzed record carrying an "HTTP 404" issue. -/
theorem C4_http_status_counterexample :
    net404 (normalizeUrl "http://ex.com") = .httpError 404 ∧
    (simpleAnalyze net404 parseOk 2025 "d" "http://ex.com").status = "error" ∧
    (simpleAnalyze net404 parseOk 2025 "d" "http://ex.com").issues = ["Site not accessible"] ∧
    (simpleAnalyze net404 parseOk 2025 "d" "http://ex.com").quality_score = 0 := by
  decide

/-- Claim C4 (amended): in the business variant an HTTP response is never a fetch
failure — the analysis completes with status analyzed and any non-200 status code
adds the "HTTP {status}" issue, whose attached deduction is 30.  In the simple
variant a non-2xx response raises and is treated as a fetch failure: for a URL not
on https:// it yields an error record with a single Site not accessible issue and
score 0 (an https:// URL instead goes through the one scheme fallback). -/
theorem C4_http_status :
    (∀ (fetch : String → BFetch) (cy : Nat) (now url0 : String) (status : Nat)
      (page : BizPage),
      fetch (normalizeUrl url0) = .ok status page →
      (bizAnalyze fetch cy now url0).status = "analyzed" ∧
      (status ≠ 200 →
        ("HTTP " ++ natStr status) ∈ (bizAnalyze fetch cy now url0).issues ∧
        deduction ("HTTP " ++ natStr status) = 30)) ∧
    (∀ (net : String → UrlOpen) (parse : String → SParsed) (cy : Nat) (now url0 : String)
      (code : Nat),
      net (normalizeUrl url0) = .httpError code →
      strStarts (normalizeUrl url0) "https://" = false →
      (simpleAnalyze net parse cy now url0).status = "error" ∧
      (simpleAnalyze net parse cy now url0).quality_score = 0 ∧
      (simpleAnalyze net parse cy now url0).issues = ["Site not accessible"]) := by
  constructor
  · intro fetch cy now url0 status page hf
    rw [bizAnalyze_ok cy now hf]
    exact ⟨rfl, fun hs => ⟨mem_bizChecks_http_issue _ _ _ _ _ hs, ded_http status⟩⟩
  · intro net parse cy now url0 code hn hu
    have hf : fetch_url net (normalizeUrl url0) = .error ("HTTP " ++ natStr code) := by
      unfold fetch_url
      rw [hn]
    rw [simpleAnalyze_nofb_fail parse cy now hf hu]
    exact ⟨rfl, rfl, rfl⟩

theorem C4_http_status_witness :
    (bizAnalyze fetch404 2025 "d" "http://ex.com").status = "analyzed" ∧
    ("HTTP " ++ natStr 404) ∈ (bizAnalyze fetch404 2025 "d" "http://ex.com").issues ∧
    (simpleAnalyze net404 parseOk 2025 "d" "http://ex.com").status = "error" :=
  have h1 := C4_http_status.1 fetch404 2025 "d" "http://ex.com" 404 pageScenA (by decide)
  have h2 := C4_http_status.2 net404 parseOk 2025 "d" "http://ex.com" 404
    (by decide) (by decide)
  ⟨h1.1, (h1.2 (by decide)).1, h2.1⟩

/-- Claim C10 as stated is false on the code: in the simple variant a successful
https→http fallback still records the raw input url, which here starts with
https:// and not with http://, even though the analyzed record does carry the
"HTTPS not available" issue. -/
theorem C10_fallback_counterexample :
    (simpleAnalyze netTlsDown parseOk 2025 "d" "https://ex.com").status = "analyzed" ∧
    "HTTPS not available" ∈ (simpleAnalyze netTlsDown parseOk 2025 "d" "https://ex.com").issues ∧
    (simpleAnalyze netTlsDown parseOk 2025 "d" "https://ex.com").url = "https://ex.com" ∧
    strStarts (simpleAnalyze netTlsDown parseOk 2025 "d" "https://ex.com").url "http://" =
      false := by
  decide

/-- Claim C10 (amended): whenever the https→http fallback succeeds, the record of
either variant contains both the "HTTPS not available" issue and the "No HTTPS"
issue, a combined 40-point deduction; in the business variant the recorded url is
the rewritten one and starts with http://, while in the simple variant the record
keeps the raw input url (the rewrite is local) and only the check itself uses the
rewritten url. -/
theorem C10_fallback_double :
    (∀ (fetch : String → BFetch) (cy : Nat) (now url0 : String) (status : Nat)
      (page : BizPage),
      strStarts (normalizeUrl url0) "https://" = true →
      fetch (normalizeUrl url0) = .sslError →
      fetch (replaceAll (normalizeUrl url0) "https://" "http://") = .ok status page →
      "HTTPS not available" ∈ (bizAnalyze fetch cy now url0).issues ∧
      "No HTTPS" ∈ (bizAnalyze fetch cy now url0).issues ∧
      (bizAnalyze fetch cy now url0).url =
        replaceAll (normalizeUrl url0) "https://" "http://" ∧
      strStarts (bizAnalyze fetch cy now url0).url "http://" = true ∧
      deduction "HTTPS not available" + deduction "No HTTPS" = 40) ∧
    (∀ (net : String → UrlOpen) (parse : String → SParsed) (cy : Nat)
      (now url0 e content : String),
      strStarts (normalizeUrl url0) "https://" = true →
      fetch_url net (normalizeUrl url0) = .error e →
      fetch_url net (replaceAll (normalizeUrl url0) "https://" "http://") = .ok content →
      "HTTPS not available" ∈ (simpleAnalyze net parse cy now url0).issues ∧
      "No HTTPS" ∈ (simpleAnalyze net parse cy now url0).issues ∧
      (simpleAnalyze net parse cy now url0).url = url0 ∧
      deduction "HTTPS not available" + deduction "No HTTPS" = 40) := by
  constructor
  · intro fetch cy now url0 status page hu hf1 hf2
    have hx := strStarts_http_of_replace hu
    have hhf := strStarts_https_false_of_http hx
    rw [bizAnalyze_ssl_ok cy now hf1 hf2]
    refine ⟨?_, ?_, rfl, hx, by decide⟩
    · exact mem_bizChecks_of_mem _ _ _ _ _ _ (by decide)
    · exact mem_bizChecks_noHttps _ _ _ _ _ hhf
  · intro net parse cy now url0 e content hu hf1 hf2
    have hx := strStarts_http_of_replace hu
    have hhf := strStarts_https_false_of_http hx
    rw [simpleAnalyze_fb_ok parse cy now hf1 hu hf2]
    refine ⟨?_, ?_, rfl, by decide⟩
    · exact mem_simpleChecks_of_mem _ _ _ _ _ (by decide)
    · exact mem_simpleChecks_noHttps _ _ _ _ hhf

theorem C10_fallback_double_witness :
    "HTTPS not available" ∈ (bizAnalyze fetchSslDown 2025 "d" "https://ex.com").issues ∧
    "No HTTPS" ∈ (bizAnalyze fetchSslDown 2025 "d" "https://ex.com").issues ∧
    strStarts (bizAnalyze fetchSslDown 2025 "d" "https://ex.com").url "http://" = true ∧
    "HTTPS not available" ∈ (simpleAnalyze netTlsDown parseOk 2025 "d" "https://ex.com").issues ∧
    "No HTTPS" ∈ (simpleAnalyze netTlsDown parseOk 2025 "d" "https://ex.com").issues :=
  have h1 := C10_fallback_double.1 fetchSslDown 2025 "d" "https://ex.com" 200 pageScenA
    (by decide) (by decide) (by decide)
  have h2 := C10_fallback_double.2 netTlsDown parseOk 2025 "d" "https://ex.com"
    "Connection error: tls handshake failure" "body" (by decide) (by rfl) (by rfl)
  ⟨h1.1, h1.2.1, h1.2.2.2.1, h2.1, h2.2.1⟩

/-- Claim C7: in every analyzed record of either variant, the "No contact info found"
issue (whose attached deduction is 20) is present iff both the extracted phone and
the extracted email fields are empty; the contact extractor and the presence check
run the same two patterns over the same lower-cased page text. -/
theorem C7_contact_iff :
    (∀ (fetch : String → BFetch) (cy : Nat) (now url0 : String),
      (bizAnalyze fetch cy now url0).status = "analyzed" →
      ((("No contact info found" ∈ (bizAnalyze fetch cy now url0).issues) ↔
        ((bizAnalyze fetch cy now url0).phone = some "" ∧
          (bizAnalyze fetch cy now url0).email = some "")) ∧
        deduction "No contact info found" = 20)) ∧
    (∀ (net : String → UrlOpen) (parse : String → SParsed) (cy : Nat) (now url0 : String),
      (simpleAnalyze net parse cy now url0).status = "analyzed" →
      ((("No contact info found" ∈ (simpleAnalyze net parse cy now url0).issues) ↔
        ((simpleAnalyze net parse cy now url0).phone = some "" ∧
          (simpleAnalyze net parse cy now url0).email = some "")) ∧
        deduction "No contact info found" = 20)) := by
  constructor
  · intro fetch cy now url0 hst
    cases hf : fetch (normalizeUrl url0) with
    | connError msg =>
      rw [bizAnalyze_conn cy now hf, bizError_status] at hst
      exact absurd hst (by decide)
    | sslError =>
      cases hf2 : fetch (replaceAll (normalizeUrl url0) "https://" "http://") with
      | ok status page =>
        rw [bizAnalyze_ssl_ok cy now hf hf2]
        exact ⟨bizFinish_contact_iff _ _ _ _ _ _ (by decide), by decide⟩
      | sslError =>
        rw [bizAnalyze_ssl_ssl cy now hf hf2, bizError_status] at hst
        exact absurd hst (by decide)
      | connError m =>
        rw [bizAnalyze_ssl_conn cy now hf hf2, bizError_status] at hst
        exact absurd hst (by decide)
    | ok status page =>
      rw [bizAnalyze_ok cy now hf]
      exact ⟨bizFinish_contact_iff _ _ _ _ _ _ (by decide), by decide⟩
  · intro net parse cy now url0 hst
    cases hf : fetch_url net (normalizeUrl url0) with
    | ok content =>
      rw [simpleAnalyze_ok parse cy now hf]
      exact ⟨simpleFinish_contact_iff _ _ _ _ _ _ (by decide), by decide⟩
    | error e =>
      cases hu : strStarts (normalizeUrl url0) "https://" with
      | false =>
        rw [simpleAnalyze_nofb_fail parse cy now hf hu, simpleError_status] at hst
        exact absurd hst (by decide)
      | true =>
        cases hf2 : fetch_url net (replaceAll (normalizeUrl url0) "https://" "http://") with
        | ok content =>
          rw [simpleAnalyze_fb_ok parse cy now hf hu hf2]
          exact ⟨simpleFinish_contact_iff _ _ _ _ _ _ (by decide), by decide⟩
        | error e2 =>
          rw [simpleAnalyze_fb_fail parse cy now hf hu hf2, simpleError_status] at hst
          exact absurd hst (by decide)

theorem C7_contact_iff_witness :
    ("No contact info found" ∉ (bizAnalyze fetchScenA 2025 "d" "http://ex.com").issues) ∧
    ("No contact info found" ∈ (simpleAnalyze netOk parseNada 2025 "d" "http://ex.com").issues) :=
  have h1 := C7_contact_iff.1 fetchScenA 2025 "d" "http://ex.com" (by decide)
  have h2 := C7_contact_iff.2 netOk parseNada 2025 "d" "http://ex.com" (by decide)
  ⟨fun hmem => absurd (h1.1.mp hmem).1 (by decide), h2.1.mpr ⟨by decide, by decide⟩⟩

/-- Claim C8: the outdated-copyright check.  The business variant behaves as the
claim says: lower-cased text containing "© 2016" (with 2016 in the scanned range
2015..current_year-2) appends "Outdated copyright: 2016" with its 10-point
deduction.  The simple variant is where the code deviates from the claim and from
its own intent: src/simple_analyzer.py line 128 literally contains the mojibake
string "Â© {year}" (bytes c3 82 c2 a9), and an upper-case Â can never occur in the
lower-cased text the check scans, so a page whose text contains "© 2016" and no
"copyright 2016" phrase yields no copyright issue at all there — the very same text
that makes the business variant deduct 10. -/
theorem C8_copyright_mojibake :
    strContains pageCopy.text "© 2016" = true ∧
    "Outdated copyright: 2016" ∈ (bizAnalyze fetchCopy 2025 "d" "http://ex.com").issues ∧
    (bizAnalyze fetchCopy 2025 "d" "http://ex.com").quality_score = 100 - 20 - 10 ∧
    deduction "Outdated copyright: 2016" = 10 ∧
    parsedCopy.text = pageCopy.text ∧
    (simpleAnalyze netOk parseCopy 2025 "d" "http://ex.com").status = "analyzed" ∧
    (simpleAnalyze netOk parseCopy 2025 "d" "http://ex.com").issues = ["No HTTPS"] ∧
    (simpleAnalyze netOk parseCopy 2025 "d" "http://ex.com").quality_score = 100 - 20 := by
  decide
